import Mathlib

/-!
# Budyko bucket model (`Budkyo.c`)

A shallow embedding of `Budkyo.c` over the real numbers.

* The C `double`/`float` values are modelled by real numbers.  An operation
  of the C math library that has no real value at its argument (a division
  by zero, `sqrt` or a non-integer `pow` of a negative number, `acos` outside
  `[-1, 1]`, `tan` at a pole) yields `none`; the C program computes a
  NaN or an infinity there.  Rounding is not modelled.
* The C `int` values are natural numbers up to `INT_MAX`; an `int` expression
  that overflows and a write outside an allocation yield `none`.
* `RunBudykoBucketModel_5km` is the live entry point: it allocates the four
  output matrices and fills them with `NA_REAL`.
* The bucket simulation stands in the source inside a comment block of
  `RunBudykoBucketModel_5km` (the file-based reference implementation); its
  statements are embedded as `bucketStep`, `referenceRun` and `bucketRun`.
-/

namespace Budyko

/-! ## The C math library on the reals -/

/-- C division `a / b`: no real value when the divisor is zero. -/
noncomputable def c_div (a b : ℝ) : Option ℝ :=
  if b = 0 then none else some (a / b)

/-- C `sqrt(x)`: no real value for a negative argument. -/
noncomputable def c_sqrt (x : ℝ) : Option ℝ :=
  if 0 ≤ x then some (Real.sqrt x) else none

/-- C `pow(x, y)` as the source uses it with the non-integer exponents `1.9`
and `5.26`: no real value for a negative base; `pow(0, y) = 0` for `y > 0`. -/
noncomputable def c_pow (x y : ℝ) : Option ℝ :=
  if 0 ≤ x then some (x ^ y) else none

/-- C `acos(x)`: no real value outside `[-1, 1]`. -/
noncomputable def c_acos (x : ℝ) : Option ℝ :=
  if -1 ≤ x ∧ x ≤ 1 then some (Real.arccos x) else none

/-- C `tan(x)`: no real value at a pole of the tangent. -/
noncomputable def c_tan (x : ℝ) : Option ℝ :=
  if Real.cos x = 0 then none else some (Real.tan x)

/-! ## `CalculateNetRadiation` (source lines 15-53) -/

/-- The function `CalculateNetRadiation`: the sunset hour angle is computed from
`tan(arg_d_lat)` and `tan(arg_d_dr)`, as the source writes it. -/
noncomputable def CalculateNetRadiation (arg_d_lat arg_d_Z arg_d_dr arg_d_declination
    arg_f_kRs arg_d_Tmax arg_d_Tmin : ℝ) : Option ℝ := do
  let tan_lat ← c_tan arg_d_lat
  let tan_dr ← c_tan arg_d_dr
  let d_omega ← c_acos (-tan_lat * tan_dr)
  let d_Ra := 37.58603136 * arg_d_dr *
    (d_omega * Real.sin arg_d_lat * Real.sin arg_d_declination +
      Real.cos arg_d_lat * Real.cos arg_d_declination * Real.sin d_omega)
  let sqrt_range ← c_sqrt (arg_d_Tmax - arg_d_Tmin)
  let d_Rs := arg_f_kRs * sqrt_range * d_Ra
  let d_Rso := (0.75 + 200000 * arg_d_Z) * d_Ra
  let d_Rns := 0.77 * d_Rs
  let d_sTmaxK4 := 0.5195 * arg_d_Tmax + 26.361
  let d_sTminK4 := 0.5195 * arg_d_Tmin + 26.361
  let d_sigma_etc := (d_sTmaxK4 + d_sTminK4) / 2
  let expo ← c_div (17.27 * arg_d_Tmin) (arg_d_Tmin + 273.3)
  let d_ea := 0.6108 * Real.exp expo
  let sqrt_ea ← c_sqrt d_ea
  let d_ea_etc := 0.34 - 0.14 * sqrt_ea
  let ratio ← c_div d_Rs d_Rso
  let d_rso_etc := 1.35 * ratio - 1.35
  let d_Rnl := d_sigma_etc * d_ea_etc * d_rso_etc
  let d_Rn := d_Rns - d_Rnl
  pure d_Rn

/-- The net radiation as the specification words it (ten steps): the same
sequence with the sunset hour angle `acos(-tan(lat)·tan(decl))` computed from
the solar declination. -/
noncomputable def netRadiationSpec (lat Z dr decl kRs tMax tMin : ℝ) : Option ℝ := do
  let tan_lat ← c_tan lat
  let tan_decl ← c_tan decl
  let omega ← c_acos (-tan_lat * tan_decl)
  let Ra := 37.58603136 * dr *
    (omega * Real.sin lat * Real.sin decl + Real.cos lat * Real.cos decl * Real.sin omega)
  let sqrt_range ← c_sqrt (tMax - tMin)
  let Rs := kRs * sqrt_range * Ra
  let Rso := (0.75 + 200000 * Z) * Ra
  let Rns := 0.77 * Rs
  let expo ← c_div (17.27 * tMin) (tMin + 273.3)
  let sqrt_ea ← c_sqrt (0.6108 * Real.exp expo)
  let ratio ← c_div Rs Rso
  let Rnl := ((0.5195 * tMax + 26.361 + (0.5195 * tMin + 26.361)) / 2) *
    (0.34 - 0.14 * sqrt_ea) * (1.35 * ratio - 1.35)
  pure (Rns - Rnl)

/-! ## `CalculatePTEvaporation` (source lines 61-85) -/

/-- The function `CalculatePTEvaporation`: Priestley-Taylor potential evaporation.
`pow(x, 2)` is the square. -/
noncomputable def CalculatePTEvaporation (arg_d_T arg_d_Z arg_d_Rn : ℝ) : Option ℝ := do
  let p ← c_pow ((293 - 0.0065 * arg_d_Z) / 293) 5.26
  let d_P := 101.38 * p
  let expo ← c_div (17.27 * arg_d_T) (arg_d_T + 273.3)
  let d_esT := 0.6108 * Real.exp expo
  let d_lambda := 2.501 - 0.002361 * arg_d_T
  let d_gamma ← c_div (0.0016286 * d_P) d_lambda
  let d_Delta ← c_div (4098 * d_esT) ((arg_d_T + 237.3) ^ 2)
  let q ← c_div d_gamma d_Delta
  let d_E_pot ← c_div (1.26 * arg_d_Rn) (d_lambda * (1 + q))
  pure d_E_pot

/-- The local `d_P` of `CalculatePTEvaporation` (line 72): pressure at the
altitude `arg_d_Z`. -/
noncomputable def d_P (arg_d_Z : ℝ) : ℝ :=
  101.38 * ((293 - 0.0065 * arg_d_Z) / 293) ^ (5.26 : ℝ)

/-- The local `d_esT` (line 74): saturation vapour pressure. -/
noncomputable def d_esT (arg_d_T : ℝ) : ℝ :=
  0.6108 * Real.exp (17.27 * arg_d_T / (arg_d_T + 273.3))

/-- The local `d_lambda` (line 76): latent heat of vapourisation. -/
noncomputable def d_lambda (arg_d_T : ℝ) : ℝ :=
  2.501 - 0.002361 * arg_d_T

/-- The local `d_gamma` (line 78): psychrometric constant. -/
noncomputable def d_gamma (arg_d_T arg_d_Z : ℝ) : ℝ :=
  0.0016286 * d_P arg_d_Z / d_lambda arg_d_T

/-- The local `d_Delta` (line 80): slope of the saturation vapour pressure
curve. -/
noncomputable def d_Delta (arg_d_T : ℝ) : ℝ :=
  4098 * d_esT arg_d_T / (arg_d_T + 237.3) ^ 2

/-! ## The bucket step (source lines 346-359, reference block) -/

/-- What one bucket step produces: `f_E_act`, `f_Q_run[i_row][i_col]` and the
updated `f_V_store[i_row][i_col]`. -/
structure BucketResult where
  actualEvap : ℝ
  runoff : ℝ
  newStorage : ℝ

/-- The `f_E_act` expression of the source (lines 348-349):
`(E_pot * W) / pow(pow(W, 1.9) + pow(E_pot, 1.9), 1.9)`. -/
noncomputable def f_E_act (f_E_pot d_W : ℝ) : Option ℝ := do
  let a ← c_pow d_W 1.9
  let b ← c_pow f_E_pot 1.9
  let d ← c_pow (a + b) 1.9
  c_div (f_E_pot * d_W) d

/-- One bucket step (lines 346-359) for a cell holding `storage`. -/
noncomputable def bucketStep (storage precipitation potentialEvap maxCapacity : ℝ) :
    Option BucketResult := do
  let d_W := storage + precipitation
  let e_act ← f_E_act potentialEvap d_W
  let v := d_W - e_act
  if v > maxCapacity then
    pure { actualEvap := e_act, runoff := v - maxCapacity, newStorage := maxCapacity }
  else
    pure { actualEvap := e_act, runoff := 0, newStorage := v }

/-- The actual evaporation as the specification words it:
`(potentialEvap · W) / (W^1.9 + potentialEvap^1.9)^(1/1.9)`. -/
noncomputable def actualEvapSpec (potentialEvap W : ℝ) : Option ℝ := do
  let a ← c_pow W 1.9
  let b ← c_pow potentialEvap 1.9
  let d ← c_pow (a + b) (1 / 1.9)
  c_div (potentialEvap * W) d

/-- A partial real function `f` tends to `l` at `+∞`: for every tolerance,
`f x` has a value within the tolerance of `l` for all large `x`. -/
def TendsToAtTop (f : ℝ → Option ℝ) (l : ℝ) : Prop :=
  ∀ ε : ℝ, 0 < ε → ∃ x0 : ℝ, ∀ x : ℝ, x0 ≤ x → ∃ a : ℝ, f x = some a ∧ |a - l| < ε

/-! ## The live entry point `RunBudykoBucketModel_5km` (source lines 96-140, 396-403) -/

/-- The C loop `for (i = 0; i < n; i++) body`, as a state transformer. -/
def forLoop {σ : Type} (n : Nat) (body : Nat → σ → σ) (s : σ) : σ :=
  match n with
  | 0 => s
  | k + 1 => body k (forLoop k body s)

/-- The four matrices returned by `RunBudykoBucketModel_5km` (the list `res`),
each `n_rows × 12` and stored column by column as R stores a matrix. -/
structure Outputs (α : Type) where
  R_E_act : List α
  R_E_pot : List α
  R_Q_run : List α
  R_Net_rad : List α
deriving DecidableEq

/-- The R function `allocMatrix(REALSXP, nrow, ncol)`: `nrow * ncol` cells
whose contents are whatever the memory held (`uninit`). -/
def allocMatrix {α : Type} (uninit : Nat → α) (nrow ncol : Nat) : List α :=
  (List.range (nrow * ncol)).map uninit

/-- The largest value of a C `int` (32 bits), `2^31 - 1`. -/
def INT_MAX : Nat := 2147483647

/-- The value of a nonnegative `int` expression: a result above `INT_MAX` is a
signed overflow, which is undefined behaviour and yields no value. -/
def c_int (z : Nat) : Option Nat :=
  if z ≤ INT_MAX then some z else none

/-- The index expression `ii+jj*n_rows` of the NA-fill loop (lines 134-137),
evaluated in `int` arithmetic: the product first, then the sum. -/
def fillIndex (n_rows ii jj : Nat) : Option Nat := do
  let t ← c_int (jj * n_rows)
  c_int (ii + t)

/-- The assignment `d[k] = a` into an allocated array: a write outside the
allocation is undefined behaviour and yields no value. -/
def storeAt {α : Type} (d : List α) (k : Nat) (a : α) : Option (List α) :=
  if k < d.length then some (d.set k a) else none

/-- The body of the NA-fill loops (source lines 134-137). -/
def fillNA {α : Type} (NA_REAL : α) (n_rows ii jj : Nat) (o : Outputs α) :
    Option (Outputs α) := do
  let k ← fillIndex n_rows ii jj
  let d_E_act ← storeAt o.R_E_act k NA_REAL
  let d_E_pot ← storeAt o.R_E_pot k NA_REAL
  let d_Q_run ← storeAt o.R_Q_run k NA_REAL
  let d_Net_rad ← storeAt o.R_Net_rad k NA_REAL
  pure { R_E_act := d_E_act, R_E_pot := d_E_pot, R_Q_run := d_Q_run, R_Net_rad := d_Net_rad }

set_option linter.unusedVariables false in
/-- The live entry point `RunBudykoBucketModel_5km` (source lines 96-140 and
396-403): it allocates the four output matrices, sets every entry to
`NA_REAL` and returns them; it has no result when the index arithmetic
overflows or a write leaves the allocation.  The element type and the
sentinel `NA_REAL` come from the R headers and are parameters; `uninit k` is
the memory content of the `k`-th allocation.  The inputs are coerced and never
read. -/
def RunBudykoBucketModel_5km {α : Type} (NA_REAL : α)
    (R_dem R_rain R_tmin R_tmax R_V_max R_kRs R_lats_radians : List α) (R_rows : Nat)
    (uninit : Nat → Nat → α) : Option (Outputs α) :=
  let n_rows := R_rows
  let alloc : Outputs α :=
    { R_E_act := allocMatrix (uninit 0) n_rows 12
      R_E_pot := allocMatrix (uninit 1) n_rows 12
      R_Q_run := allocMatrix (uninit 2) n_rows 12
      R_Net_rad := allocMatrix (uninit 3) n_rows 12 }
  forLoop n_rows (fun ii o =>
    forLoop 12 (fun jj o => o.bind (fillNA NA_REAL n_rows ii jj)) o) (some alloc)

/-- Every output holds `NA_REAL` at index `k`. -/
def NAat {α : Type} (NA_REAL : α) (k : Nat) (o : Outputs α) : Prop :=
  o.R_E_act[k]? = some NA_REAL ∧ o.R_E_pot[k]? = some NA_REAL ∧
    o.R_Q_run[k]? = some NA_REAL ∧ o.R_Net_rad[k]? = some NA_REAL

/-- Every output matrix has `len` entries. -/
def HasLength {α : Type} (len : Nat) (o : Outputs α) : Prop :=
  o.R_E_act.length = len ∧ o.R_E_pot.length = len ∧
    o.R_Q_run.length = len ∧ o.R_Net_rad.length = len

/-- A property of the state of the fill loops, where there is one. -/
def OnResult {α : Type} (P : Outputs α → Prop) (s : Option (Outputs α)) : Prop :=
  ∀ o, s = some o → P o

/-! ## The reference block of `RunBudykoBucketModel_5km` (source lines 143-393)

The file-based implementation that the source keeps inside a comment.  A grid
read from a file is a function of the row and the column; a file that is
written is the list of the values written to it, in order. -/

/-- The grid dimensions `n_rows`, `n_cols` (691 and 886 in lines 142-143) and
the grids the reference block reads: `DEM_5km.asc`, `kRs_5km.asc`, `tasmaxMM.asc`,
`tasminMM.asc`, `PAWHC_5km.asc`, `prMM.asc` (the monthly ones indexed by the
month `0..11` first). -/
structure GridFiles where
  n_rows : Nat
  n_cols : Nat
  DEM_5km : Nat → Nat → ℝ
  kRs_5km : Nat → Nat → ℝ
  tasmax : Nat → Nat → Nat → ℝ
  tasmin : Nat → Nat → Nat → ℝ
  PAWHC_5km : Nat → Nat → ℝ
  pr : Nat → Nat → Nat → ℝ

/-- The table `d_J`: Julian day for each month (line 169). -/
def d_J : List Nat := [15, 45, 74, 105, 135, 166, 196, 227, 258, 288, 319, 349]

/-- The inverse Earth-Sun distance `d_dr` of month `i_month` (line 212). -/
noncomputable def d_dr (i_month : Nat) : ℝ :=
  1 + 0.033 * Real.cos (2 * 3.141592654 * (d_J.getD i_month 0 : ℝ) / 365)

/-- The solar declination `d_declination` of month `i_month` (line 213). -/
noncomputable def d_declination (i_month : Nat) : ℝ :=
  0.409 * Real.sin ((2 * 3.141592654 * (d_J.getD i_month 0 : ℝ) / 365) - 1.39)

/-- The latitude of a grid row in radians (lines 196-197). -/
noncomputable def f_latitude_radians (i_row : Nat) : ℝ :=
  (-44.525 + (((690 : ℤ) - (i_row : ℤ) : ℤ) : ℝ) * 0.05) / 57.29577951

/-- The file names that the month loop (lines 209-274) writes into the
stringstream `out`: `tasmaxMM.asc`, `tasminMM.asc` and `rnMM.asc` of a month. -/
inductive AscName where
  | tasmax (i_month : Nat)
  | tasmin (i_month : Nat)
  | rn (i_month : Nat)
deriving DecidableEq

/-- One iteration of the month loop on the stringstream `out`, given as the
list of the names written into it since it was last emptied.  The first
component is the `s_path` used to open the tasmax file: the tasmax name is
appended to what `out` holds (lines 216-218), nothing empties `out` before.
The second component is what `out` holds when the iteration ends: `out.str`
with the empty string empties it before the tasmin name (lines 223-226) and
again before the rn name (lines 232-235). -/
def monthPaths (i_month : Nat) (out : List AscName) : List AscName × List AscName :=
  (out ++ [AscName.tasmax i_month], [] ++ [AscName.rn i_month])

/-- The content of `out` when iteration `i_month` of the month loop starts:
empty at first (line 159), then what the iteration before left. -/
def outBefore : Nat → List AscName
  | 0 => []
  | i_month + 1 => (monthPaths i_month (outBefore i_month)).2

/-- The `s_path` with which `AFileStream` is opened for the maximum
temperatures of month `i_month` (lines 218-220). -/
def tasmaxPath (i_month : Nat) : List AscName :=
  (monthPaths i_month (outBefore i_month)).1

/-- Whether `AFileStream.open` finds the tasmax file of the month: the path has
to be the name of that file. -/
def tasmaxOpens (i_month : Nat) : Bool :=
  decide (tasmaxPath i_month = [AscName.tasmax i_month])

/-- The variable `f_Tmax` when the cell `(i_row, i_col)` is computed in month
`i_month` (line 248, `AFileStream>>f_Tmax`): the value of the cell in the
tasmax grid of the month when the file is open; when the open has failed the
extraction does nothing and the variable keeps the value it had after the last
cell `(n_rows - 1, n_cols - 1)` of the month before.  (Before the first month
the variable is uninitialised; that value, written 0, is never read, because
the file of the first month opens.)  The other files are opened with a path
built on an emptied `out` or on a literal (lines 186-191, 223-229, 283-284,
302-309) and are read as the grids hold them. -/
noncomputable def f_Tmax (g : GridFiles) : Nat → Nat → Nat → ℝ
  | 0, i_row, i_col => if tasmaxOpens 0 then g.tasmax 0 i_row i_col else 0
  | i_month + 1, i_row, i_col =>
    if tasmaxOpens (i_month + 1) then g.tasmax (i_month + 1) i_row i_col
    else f_Tmax g i_month (g.n_rows - 1) (g.n_cols - 1)

/-- The net radiation `d_Rn` of a cell-month (lines 248-257), written to
`rnMM.asc`. -/
noncomputable def d_Rn (g : GridFiles) (i_month i_row i_col : Nat) : Option ℝ :=
  CalculateNetRadiation (f_latitude_radians i_row) (g.DEM_5km i_row i_col) (d_dr i_month)
    (d_declination i_month) (g.kRs_5km i_row i_col) (f_Tmax g i_month i_row i_col)
    (g.tasmin i_month i_row i_col)

/-- The array entry `f_E_pot[i_month][i_row][i_col]` (lines 261-265), computed
once per cell-month before the year loop. -/
noncomputable def f_E_pot (g : GridFiles) (i_month i_row i_col : Nat) : Option ℝ := do
  let rn ← d_Rn g i_month i_row i_col
  let d_T := (f_Tmax g i_month i_row i_col + g.tasmin i_month i_row i_col) / 2
  CalculatePTEvaporation d_T (g.DEM_5km i_row i_col) rn

/-- The state of the year loop: the array `f_V_store` and the values written
so far to `Runoff_5km.asc` and `Ea_5km.asc`.  (`f_Q_run[i_row][i_col]` is
written and read within one iteration and is a local value here.) -/
@[ext]
structure BudykoWorld where
  f_V_store : Nat → Nat → Option ℝ
  Runoff_5km : List (Option ℝ)
  Ea_5km : List (Option ℝ)

/-- The bucket step of a cell in month `i_month` from the storage `v`; it has
no value when the storage or the potential evaporation has none. -/
noncomputable def cellStep (g : GridFiles) (i_month i_row i_col : Nat) (v : Option ℝ) :
    Option BucketResult := do
  let storage ← v
  let e_pot ← f_E_pot g i_month i_row i_col
  bucketStep storage (g.pr i_month i_row i_col) e_pot (g.PAWHC_5km i_row i_col)

/-- The innermost loop body (lines 344-365): the bucket step of one cell, and
the two values written in the fourth year (`i_year == 3`). -/
noncomputable def cellBody (g : GridFiles) (i_year i_month i_row i_col : Nat)
    (s : BudykoWorld) : BudykoWorld :=
  let r := cellStep g i_month i_row i_col (s.f_V_store i_row i_col)
  { f_V_store := fun r' c' =>
      if r' = i_row ∧ c' = i_col then r.map BucketResult.newStorage else s.f_V_store r' c'
    Runoff_5km :=
      if i_year = 3 then s.Runoff_5km ++ [r.map BucketResult.runoff] else s.Runoff_5km
    Ea_5km :=
      if i_year = 3 then s.Ea_5km ++ [r.map BucketResult.actualEvap] else s.Ea_5km }

/-- The state before the year loop (lines 286-293): every cell holds half its
capacity and nothing is written yet. -/
noncomputable def initialWorld (g : GridFiles) : BudykoWorld :=
  { f_V_store := fun i_row i_col => some (g.PAWHC_5km i_row i_col / 2)
    Runoff_5km := []
    Ea_5km := [] }

/-- The year loop of the reference block (lines 326-371): four years, twelve
months each, every row and every column in turn. -/
noncomputable def referenceRun (g : GridFiles) : BudykoWorld :=
  forLoop 4 (fun i_year =>
    forLoop 12 (fun i_month =>
      forLoop g.n_rows (fun i_row =>
        forLoop g.n_cols (fun i_col => cellBody g i_year i_month i_row i_col))))
    (initialWorld g)

/-- The cells of an `n_rows × n_cols` grid in the order of the row and
column loops of the source. -/
def gridOrder (n_rows n_cols : Nat) : List (Nat × Nat) :=
  (List.range n_rows).flatMap (fun i_row => (List.range n_cols).map (fun i_col => (i_row, i_col)))

/-- The year loop with the cells of every month processed in a given order
(the source uses `gridOrder n_rows n_cols`); the potential evaporation is the
one the month loop of the source has computed. -/
noncomputable def referenceRunIn (g : GridFiles) (order : List (Nat × Nat)) : BudykoWorld :=
  forLoop 4 (fun i_year =>
    forLoop 12 (fun i_month s =>
      order.foldl (fun s cell => cellBody g i_year i_month cell.1 cell.2 s) s))
    (initialWorld g)

/-- The storage of a cell after `k` monthly steps of its own, from half its
capacity. -/
noncomputable def cellStorage (g : GridFiles) (i_row i_col : Nat) : Nat → Option ℝ
  | 0 => some (g.PAWHC_5km i_row i_col / 2)
  | k + 1 => (cellStep g (k % 12) i_row i_col (cellStorage g i_row i_col k)).map
      BucketResult.newStorage

/-- The result of the step number `k` (from 0) of a cell: the bucket step of
month `k % 12` applied to the storage reached after `k` earlier steps. -/
noncomputable def cellResult (g : GridFiles) (i_row i_col k : Nat) : Option BucketResult :=
  cellStep g (k % 12) i_row i_col (cellStorage g i_row i_col k)

/-- Two sets of grids agree on a cell: same elevation, `kRs`, capacity and the
same twelve monthly precipitations, minimum and maximum temperatures. -/
def AgreeAt (g g' : GridFiles) (i_row i_col : Nat) : Prop :=
  g.DEM_5km i_row i_col = g'.DEM_5km i_row i_col ∧
  g.kRs_5km i_row i_col = g'.kRs_5km i_row i_col ∧
  g.PAWHC_5km i_row i_col = g'.PAWHC_5km i_row i_col ∧
  ∀ i_month, i_month < 12 →
    g.pr i_month i_row i_col = g'.pr i_month i_row i_col ∧
    g.tasmin i_month i_row i_col = g'.tasmin i_month i_row i_col ∧
    g.tasmax i_month i_row i_col = g'.tasmax i_month i_row i_col

/-- The state of the year loop in closed form: every cell of `order` holds the
storage reached after `k` steps of its own, and the two files hold the results
of the first `nlog` months of the fourth year, month by month in the order the
cells are processed. -/
noncomputable def trajectoryWorld (g : GridFiles) (order : List (Nat × Nat)) (k nlog : Nat) :
    BudykoWorld :=
  { f_V_store := fun i_row i_col =>
      if (i_row, i_col) ∈ order then cellStorage g i_row i_col k
      else some (g.PAWHC_5km i_row i_col / 2)
    Runoff_5km := (List.range nlog).flatMap (fun m =>
      order.map (fun cell => (cellResult g cell.1 cell.2 (36 + m)).map BucketResult.runoff))
    Ea_5km := (List.range nlog).flatMap (fun m =>
      order.map (fun cell => (cellResult g cell.1 cell.2 (36 + m)).map BucketResult.actualEvap)) }

/-- Cell `i` is no-data in a required input of `RunBudykoBucketModel_5km`: the
elevation, the capacity, `kRs` or the latitude of the cell, or the
precipitation, minimum or maximum temperature of one of its twelve months
(the monthly matrices are stored column by column) holds `NA_REAL`. -/
def CellMissing {α : Type} (NA_REAL : α)
    (R_dem R_rain R_tmin R_tmax R_V_max R_kRs R_lats_radians : List α) (n_rows i : Nat) : Prop :=
  R_dem[i]? = some NA_REAL ∨ R_V_max[i]? = some NA_REAL ∨ R_kRs[i]? = some NA_REAL ∨
    R_lats_radians[i]? = some NA_REAL ∨
    ∃ j, j < 12 ∧ (R_rain[i + j * n_rows]? = some NA_REAL ∨
      R_tmin[i + j * n_rows]? = some NA_REAL ∨ R_tmax[i + j * n_rows]? = some NA_REAL)

/-- Example grids of one row and two columns: every cell has elevation 0,
`kRs = 0.17`, temperatures 15 and 25, capacity 100 and precipitation 50 in
every month. -/
noncomputable def uniformGrids : GridFiles :=
  { n_rows := 1
    n_cols := 2
    DEM_5km := fun _ _ => 0
    kRs_5km := fun _ _ => 0.17
    tasmax := fun _ _ _ => 25
    tasmin := fun _ _ _ => 15
    PAWHC_5km := fun _ _ => 100
    pr := fun _ _ _ => 50 }

/-- Example grids that differ from `uniformGrids` in column 1 only, the last
cell, which is colder: temperatures -10 and 0 in every month. -/
noncomputable def perturbedGrids : GridFiles :=
  { n_rows := 1
    n_cols := 2
    DEM_5km := fun _ _ => 0
    kRs_5km := fun _ _ => 0.17
    tasmax := fun _ _ i_col => if i_col = 1 then 0 else 25
    tasmin := fun _ _ i_col => if i_col = 1 then -10 else 15
    PAWHC_5km := fun _ _ => 100
    pr := fun _ _ _ => 50 }

/-- The storage of one cell after `k` monthly bucket steps of the year loop
(lines 326-371), in calendar order from half the capacity, under a forcing
repeated every year: the precipitation `pr m` and the precomputed potential
evaporation `e_pot m` of the month `m = k % 12`. -/
noncomputable def bucketRun (pr : Nat → ℝ) (e_pot : Nat → Option ℝ) (v_max : ℝ) :
    Nat → Option ℝ
  | 0 => some (v_max / 2)
  | k + 1 =>
    (do
      let storage ← bucketRun pr e_pot v_max k
      let e ← e_pot (k % 12)
      bucketStep storage (pr (k % 12)) e v_max).map BucketResult.newStorage

/-- The storage at the end of the simulated year `n` (`S_n`, with `S_0` the
initial storage). -/
noncomputable def yearEndStorage (pr : Nat → ℝ) (e_pot : Nat → Option ℝ) (v_max : ℝ)
    (n : Nat) : Option ℝ :=
  bucketRun pr e_pot v_max (12 * n)

/-- The potential evaporation of the end-to-end scenario in month `i_month`:
latitude 0, elevation 0, `kRs = 0.17`, `tMax = 25`, `tMin = 15`, computed as
the driver does (lines 251-265) by `CalculateNetRadiation` and then
`CalculatePTEvaporation` at the mean temperature. -/
noncomputable def equatorPotentialEvap (i_month : Nat) : Option ℝ := do
  let rn ← CalculateNetRadiation 0 0 (d_dr i_month) (d_declination i_month) 0.17 25 15
  CalculatePTEvaporation ((25 + 15) / 2) 0 rn

/-- A forcing for the spin-up: potential evaporation 1/4 in the first month
of the year and 0 in the others (with no precipitation). -/
noncomputable def januaryDemand (i_month : Nat) : Option ℝ :=
  if i_month = 0 then some (1 / 4) else some 0

/-! ## Theorems -/

/-! ### Powers with the exponent 1.9 -/

/-- On `[0, 1]` the power 1.9 does not exceed its base. -/
theorem rpow19_le_self {x : ℝ} (h0 : 0 ≤ x) (h1 : x ≤ 1) : x ^ (1.9 : ℝ) ≤ x := by
  rcases eq_or_lt_of_le h0 with h | h
  · subst h; rw [Real.zero_rpow (by norm_num)]
  · calc x ^ (1.9 : ℝ) ≤ x ^ (1 : ℝ) :=
        Real.rpow_le_rpow_of_exponent_ge h h1 (by norm_num)
      _ = x := Real.rpow_one x

/-- From 1 on the power 1.9 is at least its base. -/
theorem self_le_rpow19 {x : ℝ} (h1 : 1 ≤ x) : x ≤ x ^ (1.9 : ℝ) := by
  calc x = x ^ (1 : ℝ) := (Real.rpow_one x).symm
    _ ≤ x ^ (1.9 : ℝ) := Real.rpow_le_rpow_of_exponent_le h1 (by norm_num)

/-- For `0 < t ≤ 1`: `(t²)^1.9 = t^3.8 ≤ t³`. -/
theorem sq_rpow19_le {t : ℝ} (h0 : 0 < t) (h1 : t ≤ 1) : (t ^ 2) ^ (1.9 : ℝ) ≤ t ^ 3 := by
  have e : (t ^ 2) ^ (1.9 : ℝ) = t ^ (3.8 : ℝ) := by
    rw [← Real.rpow_natCast t 2, ← Real.rpow_mul h0.le]; norm_num
  rw [e, ← Real.rpow_natCast t 3]
  exact Real.rpow_le_rpow_of_exponent_ge h0 h1 (by norm_num)

/-- For `1 ≤ t`: `t³ ≤ t^3.8 = (t²)^1.9`. -/
theorem le_sq_rpow19 {t : ℝ} (h1 : 1 ≤ t) : t ^ 3 ≤ (t ^ 2) ^ (1.9 : ℝ) := by
  have h0 : 0 < t := lt_of_lt_of_le one_pos h1
  have e : (t ^ 2) ^ (1.9 : ℝ) = t ^ (3.8 : ℝ) := by
    rw [← Real.rpow_natCast t 2, ← Real.rpow_mul h0.le]; norm_num
  rw [e, ← Real.rpow_natCast t 3]
  exact Real.rpow_le_rpow_of_exponent_le h1 (by norm_num)

/-- For `1 ≤ x`: `x² ≤ x^3.61 = (x^1.9)^1.9`. -/
theorem sq_le_rpow19_rpow19 {x : ℝ} (h1 : 1 ≤ x) : x ^ 2 ≤ (x ^ (1.9 : ℝ)) ^ (1.9 : ℝ) := by
  have h0 : 0 < x := lt_of_lt_of_le one_pos h1
  rw [← Real.rpow_mul h0.le, ← Real.rpow_natCast x 2]
  exact Real.rpow_le_rpow_of_exponent_le h1 (by norm_num)

/-- The value of `f_E_act` where it has one. -/
theorem f_E_act_eq_some {e w : ℝ} (hw : 0 ≤ w) (he : 0 ≤ e)
    (hd : (w ^ (1.9 : ℝ) + e ^ (1.9 : ℝ)) ^ (1.9 : ℝ) ≠ 0) :
    f_E_act e w = some (e * w / (w ^ (1.9 : ℝ) + e ^ (1.9 : ℝ)) ^ (1.9 : ℝ)) := by
  have hs : 0 ≤ w ^ (1.9 : ℝ) + e ^ (1.9 : ℝ) :=
    add_nonneg (Real.rpow_nonneg hw _) (Real.rpow_nonneg he _)
  simp [f_E_act, c_pow, c_div, hw, he, hs, hd]

/-- C1. Water conservation of the bucket step: whatever the storage, the
precipitation, the potential evaporation and the capacity, the result of one
bucket step satisfies
`precipitation + storage_before = actualEvap + runoff + storage_after`,
in the runoff branch and in the no-runoff branch. -/
theorem bucketStep_conservation (storage precipitation potentialEvap maxCapacity : ℝ)
    (r : BucketResult)
    (h : bucketStep storage precipitation potentialEvap maxCapacity = some r) :
    precipitation + storage = r.actualEvap + r.runoff + r.newStorage := by
  unfold bucketStep at h
  cases he : f_E_act potentialEvap (storage + precipitation) with
  | none => simp [he] at h
  | some e =>
    simp only [he, Option.bind_eq_bind, Option.some_bind, Option.pure_def] at h
    split_ifs at h with hv
    · cases h
      simp
      ring
    · cases h
      simp
      ring

/-- A bucket step in terms of its actual evaporation: the storage is the
provisional storage clamped to the capacity, the runoff is the excess. -/
theorem bucketStep_of_evap {s p e vmax a : ℝ} (h : f_E_act e (s + p) = some a) :
    bucketStep s p e vmax =
      some { actualEvap := a, runoff := max (s + p - a - vmax) 0,
             newStorage := min (s + p - a) vmax } := by
  unfold bucketStep
  simp only [h, Option.bind_eq_bind, Option.some_bind, Option.pure_def]
  split_ifs with hv
  · have h1 : max (s + p - a - vmax) 0 = s + p - a - vmax := max_eq_left (by linarith)
    have h2 : min (s + p - a) vmax = vmax := min_eq_right (by linarith)
    rw [h1, h2]
  · have hv2 : s + p - a ≤ vmax := not_lt.mp hv
    have h1 : max (s + p - a - vmax) 0 = 0 := max_eq_right (by linarith)
    have h2 : min (s + p - a) vmax = s + p - a := min_eq_left hv2
    rw [h1, h2]

/-- The conservation identity at a step that overflows the bucket:
storage 2, precipitation 1, no evaporative demand, capacity 2. -/
theorem bucketStep_conservation_witness :
    bucketStep 2 1 0 2 = some { actualEvap := 0, runoff := 1, newStorage := 2 } ∧
      (1 : ℝ) + 2 = 0 + 1 + 2 := by
  have hd : ((2 + 1 : ℝ) ^ (1.9 : ℝ) + (0 : ℝ) ^ (1.9 : ℝ)) ^ (1.9 : ℝ) ≠ 0 := by
    have : (0 : ℝ) < (2 + 1 : ℝ) ^ (1.9 : ℝ) := Real.rpow_pos_of_pos (by norm_num) _
    have h0 : (0 : ℝ) ^ (1.9 : ℝ) = 0 := Real.zero_rpow (by norm_num)
    rw [h0, add_zero]
    exact ne_of_gt (Real.rpow_pos_of_pos this _)
  have hE : f_E_act 0 (2 + 1) = some 0 := by
    rw [f_E_act_eq_some (by norm_num) le_rfl hd]
    simp
  have hb : bucketStep 2 1 0 2 = some { actualEvap := 0, runoff := 1, newStorage := 2 } := by
    rw [bucketStep_of_evap hE]
    norm_num
  exact ⟨hb, bucketStep_conservation 2 1 0 2 _ hb⟩

/-- The value of the evaporation formula of the specification where it has one. -/
theorem actualEvapSpec_eq_some {e w : ℝ} (hw : 0 ≤ w) (he : 0 ≤ e)
    (hd : (w ^ (1.9 : ℝ) + e ^ (1.9 : ℝ)) ^ (1 / 1.9 : ℝ) ≠ 0) :
    actualEvapSpec e w = some (e * w / (w ^ (1.9 : ℝ) + e ^ (1.9 : ℝ)) ^ (1 / 1.9 : ℝ)) := by
  have hs : 0 ≤ w ^ (1.9 : ℝ) + e ^ (1.9 : ℝ) :=
    add_nonneg (Real.rpow_nonneg hw _) (Real.rpow_nonneg he _)
  simp only [actualEvapSpec, c_pow, c_div, hw, he, hs, hd, if_true, if_false,
    Option.bind_eq_bind, Option.some_bind]

/-- C2 (code evaluated at the failing input). With storage 0, precipitation 1,
potential evaporation 1 and capacity 10 the bucket step evaporates
`1 / 2^1.9`, where the formula of the specification gives `1 / 2^(1/1.9)`: the
source raises the sum to the power `1.9`, not to the power `1/1.9`, and the
two values differ. -/
theorem bucketStep_outer_exponent :
    bucketStep 0 1 1 10 =
        some { actualEvap := 1 / (2 : ℝ) ^ (1.9 : ℝ), runoff := 0,
               newStorage := 1 - 1 / (2 : ℝ) ^ (1.9 : ℝ) } ∧
      actualEvapSpec 1 (0 + 1) = some (1 / (2 : ℝ) ^ (1 / 1.9 : ℝ)) ∧
      1 / (2 : ℝ) ^ (1.9 : ℝ) < 1 / (2 : ℝ) ^ (1 / 1.9 : ℝ) := by
  have h2 : ((0 + 1 : ℝ) ^ (1.9 : ℝ) + (1 : ℝ) ^ (1.9 : ℝ)) = 2 := by
    rw [zero_add, Real.one_rpow]; norm_num
  have hp : (0 : ℝ) < (2 : ℝ) ^ (1.9 : ℝ) := Real.rpow_pos_of_pos (by norm_num) _
  have hq : (0 : ℝ) < (2 : ℝ) ^ (1 / 1.9 : ℝ) := Real.rpow_pos_of_pos (by norm_num) _
  have hlt : (2 : ℝ) ^ (1 / 1.9 : ℝ) < (2 : ℝ) ^ (1.9 : ℝ) :=
    Real.rpow_lt_rpow_of_exponent_lt (by norm_num) (by norm_num)
  have hE : f_E_act 1 (0 + 1) = some (1 / (2 : ℝ) ^ (1.9 : ℝ)) := by
    rw [f_E_act_eq_some (by norm_num) (by norm_num) (by rw [h2]; exact ne_of_gt hp), h2]
    norm_num
  have hS : actualEvapSpec 1 (0 + 1) = some (1 / (2 : ℝ) ^ (1 / 1.9 : ℝ)) := by
    rw [actualEvapSpec_eq_some (by norm_num) (by norm_num) (by rw [h2]; exact ne_of_gt hq), h2]
    norm_num
  refine ⟨?_, hS, one_div_lt_one_div_of_lt hq hlt⟩
  rw [bucketStep_of_evap hE]
  have hle : 1 / (2 : ℝ) ^ (1.9 : ℝ) ≤ 1 := by
    rw [div_le_one hp]
    calc (1 : ℝ) ≤ 2 := by norm_num
      _ ≤ (2 : ℝ) ^ (1.9 : ℝ) := self_le_rpow19 (by norm_num)
  have hnn : 0 ≤ 1 / (2 : ℝ) ^ (1.9 : ℝ) := by positivity
  have h1 : max ((0 : ℝ) + 1 - 1 / (2 : ℝ) ^ (1.9 : ℝ) - 10) 0 = 0 :=
    max_eq_right (by linarith)
  have h3 : min ((0 : ℝ) + 1 - 1 / (2 : ℝ) ^ (1.9 : ℝ)) 10 = 1 - 1 / (2 : ℝ) ^ (1.9 : ℝ) := by
    rw [min_eq_left (by linarith)]; ring
  rw [h1, h3]

/-- The tangent of 1 rad exceeds 1, since `π/4 < 1 < π/2`. -/
theorem one_lt_tan_one : 1 < Real.tan 1 := by
  have h := Real.tan_lt_tan_of_lt_of_lt_pi_div_two (x := Real.pi / 4) (y := 1)
    (by linarith [Real.pi_pos]) (by linarith [Real.pi_gt_three]) (by linarith [Real.pi_lt_d2])
  rwa [Real.tan_pi_div_four] at h

/-- C3 (code evaluated at the failing input). At latitude 1 rad, elevation 0,
`dr = 1`, declination 0, `kRs = 0.17`, `tMax = 25`, `tMin = 15` the
ten steps of the specification have a value (the sunset hour angle is
`acos(-tan(1)·tan(0)) = acos 0`), while `CalculateNetRadiation` has none: it
takes `acos(-tan(lat)·tan(dr)) = acos(-tan(1)·tan(1))`, whose argument is
below `-1`. -/
theorem CalculateNetRadiation_uses_dr :
    CalculateNetRadiation 1 0 1 0 0.17 25 15 = none ∧
      ∃ v : ℝ, netRadiationSpec 1 0 1 0 0.17 25 15 = some v := by
  have hc : Real.cos 1 ≠ 0 := ne_of_gt Real.cos_one_pos
  have ht := one_lt_tan_one
  constructor
  · have hlt : ¬ (-1 ≤ -Real.tan 1 * Real.tan 1 ∧ -Real.tan 1 * Real.tan 1 ≤ 1) := by
      intro h
      nlinarith [h.1]
    simp only [CalculateNetRadiation, c_tan, c_acos, hc, hlt, if_false,
      Option.bind_eq_bind, Option.some_bind, Option.none_bind]
  · simp [netRadiationSpec, c_tan, c_acos, c_sqrt, c_div, hc]
    have h1 : (15 : ℝ) ≤ 25 := by norm_num
    have h2 : ¬ ((15 : ℝ) + 273.3 = 0) := by norm_num
    have h3 : ∀ x : ℝ, 0 ≤ 0.6108 * Real.exp x := fun x => by positivity
    have h4 : ¬ ((0.75 : ℝ) = 0 ∨ (37.58603136 : ℝ) = 0) := by norm_num
    simp only [h1, h2, h3, h4, if_true, if_false, Option.some_bind]
    exact ⟨_, rfl⟩

/-- The denominator of `f_E_act` is positive unless both arguments vanish. -/
theorem f_E_act_denominator_pos {e w : ℝ} (hw : 0 ≤ w) (he : 0 ≤ e) (h : 0 < w ∨ 0 < e) :
    0 < (w ^ (1.9 : ℝ) + e ^ (1.9 : ℝ)) ^ (1.9 : ℝ) := by
  apply Real.rpow_pos_of_pos
  rcases h with h | h
  · exact add_pos_of_pos_of_nonneg (Real.rpow_pos_of_pos h _) (Real.rpow_nonneg he _)
  · exact add_pos_of_nonneg_of_pos (Real.rpow_nonneg hw _) (Real.rpow_pos_of_pos h _)

/-- The expression `f_E_act` has a value on nonnegative arguments that are not
both zero. -/
theorem f_E_act_of_pos {e w : ℝ} (hw : 0 ≤ w) (he : 0 ≤ e) (h : 0 < w ∨ 0 < e) :
    f_E_act e w = some (e * w / (w ^ (1.9 : ℝ) + e ^ (1.9 : ℝ)) ^ (1.9 : ℝ)) :=
  f_E_act_eq_some hw he (ne_of_gt (f_E_act_denominator_pos hw he h))

/-- The bucket step has a result on a nonnegative available water and a
nonnegative potential evaporation that are not both zero. -/
theorem bucketStep_isSome {s p e vmax : ℝ} (hw : 0 ≤ s + p) (he : 0 ≤ e)
    (h : 0 < s + p ∨ 0 < e) : ∃ r : BucketResult, bucketStep s p e vmax = some r :=
  ⟨_, bucketStep_of_evap (f_E_act_of_pos hw he h)⟩

/-- With available water 1/16 and potential evaporation 1/4 the formula
of the source evaporates at least 1/9, more than the water there is. -/
theorem f_E_act_exceeds_water :
    ∃ a : ℝ, f_E_act (1 / 4) (1 / 16) = some a ∧ 1 / 9 ≤ a := by
  refine ⟨_, f_E_act_of_pos (by norm_num) (by norm_num) (Or.inl (by norm_num)), ?_⟩
  have hd := f_E_act_denominator_pos (e := 1 / 4) (w := 1 / 16) (by norm_num) (by norm_num)
    (Or.inl (by norm_num))
  have hw : (1 / 16 : ℝ) ^ (1.9 : ℝ) ≤ 1 / 64 := by
    have h := sq_rpow19_le (t := 1 / 4) (by norm_num) (by norm_num)
    norm_num at h ⊢
    exact h
  have he : (1 / 4 : ℝ) ^ (1.9 : ℝ) ≤ 1 / 8 := by
    have h := sq_rpow19_le (t := 1 / 2) (by norm_num) (by norm_num)
    norm_num at h ⊢
    exact h
  have hs0 : 0 ≤ (1 / 16 : ℝ) ^ (1.9 : ℝ) + (1 / 4 : ℝ) ^ (1.9 : ℝ) :=
    add_nonneg (Real.rpow_nonneg (by norm_num) _) (Real.rpow_nonneg (by norm_num) _)
  have hs : ((1 / 16 : ℝ) ^ (1.9 : ℝ) + (1 / 4 : ℝ) ^ (1.9 : ℝ)) ^ (1.9 : ℝ) ≤ 9 / 64 := by
    calc ((1 / 16 : ℝ) ^ (1.9 : ℝ) + (1 / 4 : ℝ) ^ (1.9 : ℝ)) ^ (1.9 : ℝ)
        ≤ (1 / 16 : ℝ) ^ (1.9 : ℝ) + (1 / 4 : ℝ) ^ (1.9 : ℝ) :=
          rpow19_le_self hs0 (by linarith)
      _ ≤ 9 / 64 := by linarith
  rw [le_div_iff₀ hd]
  linarith

/-- A step from an empty bucket with precipitation 1/16 and potential
evaporation 1/4 leaves at most `1/16 - 1/9` in the bucket. -/
theorem bucketStep_small_rain (vmax : ℝ) :
    ∃ r : BucketResult, bucketStep 0 (1 / 16) (1 / 4) vmax = some r ∧
      r.newStorage ≤ 1 / 16 - 1 / 9 := by
  obtain ⟨a, ha, hle⟩ := f_E_act_exceeds_water
  have ha2 : f_E_act (1 / 4) (0 + 1 / 16) = some a := by rw [zero_add]; exact ha
  refine ⟨_, bucketStep_of_evap ha2, ?_⟩
  calc min ((0 : ℝ) + 1 / 16 - a) vmax ≤ 0 + 1 / 16 - a := min_le_left _ _
    _ ≤ 1 / 16 - 1 / 9 := by linarith

/-- A step with no available water and a positive potential evaporation
evaporates nothing and leaves the bucket empty. -/
theorem bucketStep_no_water {e vmax : ℝ} (he : 0 < e) (hv : 0 ≤ vmax) :
    bucketStep 0 0 e vmax = some { actualEvap := 0, runoff := 0, newStorage := 0 } := by
  have hE : f_E_act e (0 + 0) = some 0 := by
    rw [f_E_act_of_pos (by norm_num) he.le (Or.inr he)]
    simp
  rw [bucketStep_of_evap hE]
  have h1 : max ((0 : ℝ) + 0 - 0 - vmax) 0 = 0 := max_eq_right (by linarith)
  have h2 : min ((0 : ℝ) + 0 - 0) vmax = 0 := by rw [min_eq_left (by linarith)]; ring
  rw [h1, h2]

/-- C4 (code evaluated at the failing input). From the storage 0, inside
`[0, maxCapacity]` for the capacity 1, a step with precipitation 1/16 and
potential evaporation 1/4 produces a negative storage: the formula of the
source evaporates more than the available water. -/
theorem bucketStep_storage_negative :
    (0 : ℝ) ≤ 0 ∧ (0 : ℝ) ≤ 1 ∧
      ∃ r : BucketResult, bucketStep 0 (1 / 16) (1 / 4) 1 = some r ∧ r.newStorage < 0 := by
  obtain ⟨r, hr, hle⟩ := bucketStep_small_rain 1
  exact ⟨le_rfl, zero_le_one, r, hr, by linarith⟩

/-- C6 (code evaluated at the failing input). With storage 0, potential
evaporation 1/4 and capacity 1, raising the precipitation from 0 to 1/16
lowers the new storage from 0 to a negative value. -/
theorem bucketStep_storage_not_monotone :
    ∃ r1 r2 : BucketResult, bucketStep 0 0 (1 / 4) 1 = some r1 ∧
      bucketStep 0 (1 / 16) (1 / 4) 1 = some r2 ∧ r2.newStorage < r1.newStorage := by
  obtain ⟨r, hr, hle⟩ := bucketStep_small_rain 1
  refine ⟨_, r, bucketStep_no_water (by norm_num) (by norm_num), hr, ?_⟩
  show r.newStorage < 0
  linarith

/-- C7 (code evaluated at the failing input). With storage 1, potential
evaporation 1 and capacity 10, the step with precipitation 3 evaporates less
than the step with precipitation 0. -/
theorem bucketStep_evap_below_dry :
    ∃ r0 r3 : BucketResult, bucketStep 1 0 1 10 = some r0 ∧
      bucketStep 1 3 1 10 = some r3 ∧ r3.actualEvap < r0.actualEvap := by
  have h0 := f_E_act_of_pos (e := 1) (w := 1 + 0) (by norm_num) (by norm_num)
    (Or.inr (by norm_num))
  have h3 := f_E_act_of_pos (e := 1) (w := 1 + 3) (by norm_num) (by norm_num)
    (Or.inr (by norm_num))
  refine ⟨_, _, bucketStep_of_evap h0, bucketStep_of_evap h3, ?_⟩
  show 1 * (1 + 3) / ((1 + 3 : ℝ) ^ (1.9 : ℝ) + (1 : ℝ) ^ (1.9 : ℝ)) ^ (1.9 : ℝ) <
    1 * (1 + 0) / ((1 + 0 : ℝ) ^ (1.9 : ℝ) + (1 : ℝ) ^ (1.9 : ℝ)) ^ (1.9 : ℝ)
  have e1 : ((1 + 0 : ℝ) ^ (1.9 : ℝ) + (1 : ℝ) ^ (1.9 : ℝ)) = 2 := by
    rw [add_zero, Real.one_rpow]; norm_num
  have u2 : (2 : ℝ) ^ (1.9 : ℝ) ≤ 4 := by
    calc (2 : ℝ) ^ (1.9 : ℝ) ≤ (2 : ℝ) ^ (2 : ℝ) :=
          Real.rpow_le_rpow_of_exponent_le (by norm_num) (by norm_num)
      _ = 4 := by rw [Real.rpow_two]; norm_num
  have p2 : (0 : ℝ) < (2 : ℝ) ^ (1.9 : ℝ) := Real.rpow_pos_of_pos (by norm_num) _
  have l4 : (8 : ℝ) ≤ (1 + 3 : ℝ) ^ (1.9 : ℝ) := by
    have h := le_sq_rpow19 (t := 2) (by norm_num)
    norm_num at h ⊢
    exact h
  have l9 : (27 : ℝ) ≤ (9 : ℝ) ^ (1.9 : ℝ) := by
    have h := le_sq_rpow19 (t := 3) (by norm_num)
    norm_num at h ⊢
    exact h
  have ld : (27 : ℝ) ≤ ((1 + 3 : ℝ) ^ (1.9 : ℝ) + (1 : ℝ) ^ (1.9 : ℝ)) ^ (1.9 : ℝ) := by
    refine le_trans l9 (Real.rpow_le_rpow (by norm_num) ?_ (by norm_num))
    rw [Real.one_rpow]
    linarith
  rw [e1]
  calc 1 * (1 + 3) / ((1 + 3 : ℝ) ^ (1.9 : ℝ) + (1 : ℝ) ^ (1.9 : ℝ)) ^ (1.9 : ℝ)
      ≤ 1 * (1 + 3) / 27 := by
        apply div_le_div_of_nonneg_left (by norm_num) (by norm_num) ld
    _ < 1 * (1 + 0) / 4 := by norm_num
    _ ≤ 1 * (1 + 0) / (2 : ℝ) ^ (1.9 : ℝ) :=
        div_le_div_of_nonneg_left (by norm_num) p2 u2

/-- The expression `f_E_act` is symmetric in its two arguments. -/
theorem f_E_act_comm (e w : ℝ) : f_E_act e w = f_E_act w e := by
  unfold f_E_act c_pow c_div
  by_cases hw : 0 ≤ w <;> by_cases he : 0 ≤ e <;>
    simp [hw, he, add_comm (w ^ (1.9 : ℝ)), mul_comm e]

/-- For a potential evaporation `e ≥ 1` the formula of the source
evaporates at most `w / e`. -/
theorem f_E_act_le_div {e w : ℝ} (hw : 0 ≤ w) (he : 1 ≤ e) :
    ∃ a : ℝ, f_E_act e w = some a ∧ 0 ≤ a ∧ a ≤ w / e := by
  have he0 : 0 < e := lt_of_lt_of_le one_pos he
  have hd := f_E_act_denominator_pos hw he0.le (Or.inr he0)
  refine ⟨_, f_E_act_of_pos hw he0.le (Or.inr he0), ?_, ?_⟩
  · exact div_nonneg (mul_nonneg he0.le hw) hd.le
  · have h1 : e ^ 2 ≤ (w ^ (1.9 : ℝ) + e ^ (1.9 : ℝ)) ^ (1.9 : ℝ) := by
      refine le_trans (sq_le_rpow19_rpow19 he) ?_
      apply Real.rpow_le_rpow (Real.rpow_nonneg he0.le _) _ (by norm_num)
      linarith [Real.rpow_nonneg hw (1.9 : ℝ)]
    rw [div_le_div_iff₀ hd he0]
    nlinarith [mul_nonneg hw he0.le]

/-- With a fixed nonnegative `w`, `f_E_act e w` tends to 0 as `e` grows. -/
theorem f_E_act_tendsto_zero {w : ℝ} (hw : 0 ≤ w) :
    TendsToAtTop (fun e => f_E_act e w) 0 := by
  intro ε hε
  refine ⟨max 1 (w / ε + 1), fun e he => ?_⟩
  have he1 : 1 ≤ e := le_trans (le_max_left _ _) he
  have he2 : w / ε + 1 ≤ e := le_trans (le_max_right _ _) he
  have he0 : 0 < e := lt_of_lt_of_le one_pos he1
  obtain ⟨a, ha, ha0, hle⟩ := f_E_act_le_div hw he1
  refine ⟨a, ha, ?_⟩
  rw [sub_zero, abs_of_nonneg ha0]
  refine lt_of_le_of_lt hle ?_
  rw [div_lt_iff₀ he0]
  have h3 : w / ε < e := by linarith
  rw [div_lt_iff₀ hε] at h3
  linarith

/-- A partial function has at most one limit at `+∞`. -/
theorem TendsToAtTop_unique {f : ℝ → Option ℝ} {l m : ℝ} (hl : TendsToAtTop f l)
    (hm : TendsToAtTop f m) : l = m := by
  by_contra hne
  have hpos : 0 < |l - m| / 2 := by
    have : 0 < |l - m| := abs_pos.mpr (sub_ne_zero.mpr hne)
    linarith
  obtain ⟨x1, h1⟩ := hl _ hpos
  obtain ⟨x2, h2⟩ := hm _ hpos
  obtain ⟨a, ha, hal⟩ := h1 (max x1 x2) (le_max_left _ _)
  obtain ⟨b, hb, hbm⟩ := h2 (max x1 x2) (le_max_right _ _)
  have hab : a = b := by
    have hh : some a = some b := by rw [← ha, ← hb]
    exact Option.some.inj hh
  subst hab
  have h3 : |l - m| ≤ |a - l| + |a - m| := by
    calc |l - m| = |(a - m) - (a - l)| := by ring_nf
      _ ≤ |a - m| + |a - l| := abs_sub _ _
      _ = |a - l| + |a - m| := add_comm _ _
  linarith

/-- C5 (code evaluated at the failing input). With the available water fixed
at 1 the actual evaporation of the source tends to 0, not to the available
water 1, as the potential evaporation grows; with the potential evaporation
fixed at 1 it tends to 0, not to the potential evaporation 1, as the
available water grows. -/
theorem f_E_act_no_saturation :
    TendsToAtTop (fun e => f_E_act e 1) 0 ∧ ¬ TendsToAtTop (fun e => f_E_act e 1) 1 ∧
      TendsToAtTop (fun w => f_E_act 1 w) 0 ∧ ¬ TendsToAtTop (fun w => f_E_act 1 w) 1 := by
  have h1 : TendsToAtTop (fun e => f_E_act e 1) 0 := f_E_act_tendsto_zero zero_le_one
  have h2 : TendsToAtTop (fun w => f_E_act 1 w) 0 := by
    have e : (fun w => f_E_act 1 w) = (fun e => f_E_act e 1) := by
      funext w
      exact f_E_act_comm 1 w
    rw [e]
    exact h1
  refine ⟨h1, fun h => ?_, h2, fun h => ?_⟩
  · exact zero_ne_one (TendsToAtTop_unique h1 h)
  · exact zero_ne_one (TendsToAtTop_unique h2 h)

/-! ### The live entry point -/

/-- The last iteration of a loop. -/
theorem forLoop_succ {σ : Type} (n : Nat) (body : Nat → σ → σ) (s : σ) :
    forLoop (n + 1) body s = body n (forLoop n body s) := rfl

/-- A property kept by every iteration is kept by the loop. -/
theorem forLoop_invariant {σ : Type} (Q : σ → Prop) (body : Nat → σ → σ)
    (hQ : ∀ k s, Q s → Q (body k s)) (n : Nat) (s : σ) (h : Q s) :
    Q (forLoop n body s) := by
  induction n with
  | zero => exact h
  | succ n ih => exact hQ n _ ih

/-- A property kept by the iterations below `n` is kept by the loop to `n`. -/
theorem forLoop_invariant_lt {σ : Type} (Q : σ → Prop) (body : Nat → σ → σ) (n : Nat)
    (hQ : ∀ k, k < n → ∀ s, Q s → Q (body k s)) (s : σ) (h : Q s) :
    Q (forLoop n body s) := by
  induction n with
  | zero => exact h
  | succ n ih =>
    exact hQ n (Nat.lt_succ_self n) _ (ih (fun k hk => hQ k (Nat.lt_succ_of_lt hk)))

/-- A property established by iteration `i` and kept by the others holds
after a loop that runs iteration `i`. -/
theorem forLoop_establish {σ : Type} (Q P : σ → Prop) (body : Nat → σ → σ) (i : Nat)
    (hQ : ∀ k s, Q s → Q (body k s)) (hest : ∀ s, Q s → P (body i s))
    (hpres : ∀ k s, Q s → P s → P (body k s)) (n : Nat) (hi : i < n) (s : σ) (h : Q s) :
    P (forLoop n body s) := by
  induction n with
  | zero => omega
  | succ n ih =>
    rw [forLoop_succ]
    have hq := forLoop_invariant Q body hQ n s h
    rcases Nat.lt_succ_iff_lt_or_eq.mp hi with hlt | heq
    · exact hpres n _ hq (ih hlt)
    · subst heq
      exact hest _ hq

/-- Writing `a` anywhere keeps an entry that already holds `a`. -/
theorem getElem?_set_of_eq {α : Type} (l : List α) (idx k : Nat) (a : α)
    (h : l[k]? = some a) : (l.set idx a)[k]? = some a := by
  rw [List.getElem?_set]
  split_ifs with h1 h2
  · rfl
  · subst h1
    rw [List.getElem?_eq_none (not_lt.mp h2)] at h
    cases h
  · exact h

/-- The index of the fill loop where it has a value: the exact sum, within
`int`. -/
theorem fillIndex_eq_some {n_rows ii jj k : Nat} (h : fillIndex n_rows ii jj = some k) :
    k = ii + jj * n_rows ∧ ii + jj * n_rows ≤ INT_MAX := by
  unfold fillIndex c_int at h
  by_cases h1 : jj * n_rows ≤ INT_MAX
  · by_cases h2 : ii + jj * n_rows ≤ INT_MAX
    · simp [h1, h2] at h
      exact ⟨h.symm, h2⟩
    · simp [h1, h2] at h
  · simp [h1] at h

/-- The index of the fill loop has a value when the sum fits an `int`. -/
theorem fillIndex_of_le {n_rows ii jj : Nat} (h : ii + jj * n_rows ≤ INT_MAX) :
    fillIndex n_rows ii jj = some (ii + jj * n_rows) := by
  have h1 : jj * n_rows ≤ INT_MAX := le_trans (Nat.le_add_left _ _) h
  simp [fillIndex, c_int, h1, h]

/-- The loop body where it has a result: the four writes at the exact index,
inside the allocations. -/
theorem fillNA_eq_some {α : Type} {NA_REAL : α} {n_rows ii jj : Nat} {o o' : Outputs α}
    (h : fillNA NA_REAL n_rows ii jj o = some o') :
    ii + jj * n_rows ≤ INT_MAX ∧
      ii + jj * n_rows < o.R_E_act.length ∧ ii + jj * n_rows < o.R_E_pot.length ∧
      ii + jj * n_rows < o.R_Q_run.length ∧ ii + jj * n_rows < o.R_Net_rad.length ∧
      o' = { R_E_act := o.R_E_act.set (ii + jj * n_rows) NA_REAL
             R_E_pot := o.R_E_pot.set (ii + jj * n_rows) NA_REAL
             R_Q_run := o.R_Q_run.set (ii + jj * n_rows) NA_REAL
             R_Net_rad := o.R_Net_rad.set (ii + jj * n_rows) NA_REAL } := by
  unfold fillNA at h
  cases hk : fillIndex n_rows ii jj with
  | none => simp [hk] at h
  | some k =>
    obtain ⟨rfl, hle⟩ := fillIndex_eq_some hk
    simp only [hk, storeAt, Option.bind_eq_bind, Option.some_bind, Option.pure_def] at h
    by_cases h1 : ii + jj * n_rows < o.R_E_act.length
    · by_cases h2 : ii + jj * n_rows < o.R_E_pot.length
      · by_cases h3 : ii + jj * n_rows < o.R_Q_run.length
        · by_cases h4 : ii + jj * n_rows < o.R_Net_rad.length
          · simp only [h1, h2, h3, h4, if_true, Option.some_bind] at h
            exact ⟨hle, h1, h2, h3, h4, (Option.some.inj h).symm⟩
          · simp [h1, h2, h3, h4] at h
        · simp [h1, h2, h3] at h
      · simp [h1, h2] at h
    · simp [h1] at h

/-- The loop body has a result when the index fits an `int` and the
allocations. -/
theorem fillNA_of_lt {α : Type} (NA_REAL : α) {n_rows ii jj len : Nat} {o : Outputs α}
    (hlen : HasLength len o) (hlt : ii + jj * n_rows < len) (hle : len ≤ INT_MAX + 1) :
    ∃ o', fillNA NA_REAL n_rows ii jj o = some o' ∧ HasLength len o' := by
  obtain ⟨h1, h2, h3, h4⟩ := hlen
  have hi : ii + jj * n_rows ≤ INT_MAX := by omega
  refine ⟨⟨o.R_E_act.set (ii + jj * n_rows) NA_REAL, o.R_E_pot.set (ii + jj * n_rows) NA_REAL,
    o.R_Q_run.set (ii + jj * n_rows) NA_REAL, o.R_Net_rad.set (ii + jj * n_rows) NA_REAL⟩,
    ?_, ?_⟩
  · simp only [fillNA, fillIndex_of_le hi, storeAt, h1, h2, h3, h4, hlt, if_true,
      Option.bind_eq_bind, Option.some_bind, Option.pure_def]
  · simp [HasLength, h1, h2, h3, h4]

/-- The loop body keeps the size of the matrices. -/
theorem fillNA_hasLength {α : Type} (NA_REAL : α) (n_rows ii jj len : Nat)
    (s : Option (Outputs α)) (h : OnResult (HasLength len) s) :
    OnResult (HasLength len) (s.bind (fillNA NA_REAL n_rows ii jj)) := by
  intro o' ho'
  obtain ⟨o, rfl, hf⟩ := Option.bind_eq_some.mp ho'
  obtain ⟨h1, h2, h3, h4⟩ := h o rfl
  obtain ⟨_, _, _, _, _, rfl⟩ := fillNA_eq_some hf
  simp [HasLength, h1, h2, h3, h4]

/-- The loop body keeps an entry that holds `NA_REAL`. -/
theorem fillNA_keeps {α : Type} (NA_REAL : α) (n_rows ii jj k : Nat)
    (s : Option (Outputs α)) (h : OnResult (NAat NA_REAL k) s) :
    OnResult (NAat NA_REAL k) (s.bind (fillNA NA_REAL n_rows ii jj)) := by
  intro o' ho'
  obtain ⟨o, rfl, hf⟩ := Option.bind_eq_some.mp ho'
  obtain ⟨h1, h2, h3, h4⟩ := h o rfl
  obtain ⟨_, _, _, _, _, rfl⟩ := fillNA_eq_some hf
  exact ⟨getElem?_set_of_eq _ _ _ _ h1, getElem?_set_of_eq _ _ _ _ h2,
    getElem?_set_of_eq _ _ _ _ h3, getElem?_set_of_eq _ _ _ _ h4⟩

/-- The loop body sets the entry `ii + jj * n_rows` of the four matrices. -/
theorem fillNA_sets {α : Type} (NA_REAL : α) (n_rows ii jj : Nat)
    (s : Option (Outputs α)) :
    OnResult (NAat NA_REAL (ii + jj * n_rows)) (s.bind (fillNA NA_REAL n_rows ii jj)) := by
  intro o' ho'
  obtain ⟨o, rfl, hf⟩ := Option.bind_eq_some.mp ho'
  obtain ⟨_, h1, h2, h3, h4, rfl⟩ := fillNA_eq_some hf
  simp [NAat, List.getElem?_set, h1, h2, h3, h4]

/-- After the NA-fill loops every entry `(i, j)` of every returned matrix holds
`NA_REAL`, whatever the inputs and the memory contents. -/
theorem RunBudykoBucketModel_5km_all_NA {α : Type} (NA_REAL : α)
    (R_dem R_rain R_tmin R_tmax R_V_max R_kRs R_lats_radians : List α) (n_rows : Nat)
    (uninit : Nat → Nat → α) (i j : Nat) (hi : i < n_rows) (hj : j < 12)
    (out : Outputs α)
    (hout : RunBudykoBucketModel_5km NA_REAL R_dem R_rain R_tmin R_tmax R_V_max R_kRs
      R_lats_radians n_rows uninit = some out) :
    NAat NA_REAL (i + j * n_rows) out := by
  unfold RunBudykoBucketModel_5km at hout
  refine forLoop_establish (fun _ => True) (OnResult (NAat NA_REAL (i + j * n_rows))) _ i
    (fun _ _ _ => trivial) ?_ ?_ n_rows hi _ trivial out hout
  · intro s _
    exact forLoop_establish (fun _ => True) (OnResult (NAat NA_REAL (i + j * n_rows))) _ j
      (fun _ _ _ => trivial) (fun s _ => fillNA_sets NA_REAL n_rows i j s)
      (fun k s _ hp => fillNA_keeps NA_REAL n_rows i k _ s hp) 12 hj s trivial
  · intro k s _ hp
    exact forLoop_invariant _ _ (fun kk s hp => fillNA_keeps NA_REAL n_rows k kk _ s hp) 12 s hp

/-- The function returns its four matrices, each of `12 * n_rows` entries, when
the largest index `12 * n_rows - 1` fits an `int`. -/
theorem RunBudykoBucketModel_5km_returns {α : Type} (NA_REAL : α)
    (R_dem R_rain R_tmin R_tmax R_V_max R_kRs R_lats_radians : List α) (n_rows : Nat)
    (uninit : Nat → Nat → α) (hn : n_rows ≤ 178956970) :
    ∃ out, RunBudykoBucketModel_5km NA_REAL R_dem R_rain R_tmin R_tmax R_V_max R_kRs
      R_lats_radians n_rows uninit = some out ∧ HasLength (n_rows * 12) out := by
  unfold RunBudykoBucketModel_5km
  refine forLoop_invariant_lt
    (fun s => ∃ o, s = some o ∧ HasLength (n_rows * 12) o) _ n_rows ?_ _ ?_
  · intro ii hii s hs
    refine forLoop_invariant_lt
      (fun s => ∃ o, s = some o ∧ HasLength (n_rows * 12) o) _ 12 ?_ s hs
    rintro jj hjj s ⟨o, rfl, ho⟩
    have hlt : ii + jj * n_rows < n_rows * 12 := by nlinarith
    have hle : n_rows * 12 ≤ INT_MAX + 1 := by unfold INT_MAX; omega
    obtain ⟨o', ho', hl'⟩ := fillNA_of_lt NA_REAL ho hlt hle
    exact ⟨o', by simpa using ho', hl'⟩
  · exact ⟨_, rfl, by simp [HasLength, allocMatrix]⟩

/-! ### The reference block -/

/-- The C loop is the left fold over `0, …, n-1`. -/
theorem forLoop_eq_foldl {σ : Type} (n : Nat) (body : Nat → σ → σ) (s : σ) :
    forLoop n body s = (List.range n).foldl (fun s i => body i s) s := by
  induction n with
  | zero => rfl
  | succ n ih => rw [forLoop_succ, ih, List.range_succ, List.foldl_append]; rfl

/-- A fold over a concatenation of lists is the nested fold. -/
theorem foldl_flatMap_eq {α β σ : Type} (l : List α) (f : α → List β) (body : σ → β → σ)
    (s : σ) :
    (l.flatMap f).foldl body s = l.foldl (fun s a => (f a).foldl body s) s := by
  induction l generalizing s with
  | nil => rfl
  | cons a l ih => rw [List.flatMap_cons, List.foldl_append, ih]; rfl

/-- The row and column loops are a fold over the cells in `gridOrder`. -/
theorem rowColLoops_eq_foldl {σ : Type} (n_rows n_cols : Nat) (body : Nat → Nat → σ → σ)
    (s : σ) :
    forLoop n_rows (fun i_row => forLoop n_cols (fun i_col => body i_row i_col)) s =
      (gridOrder n_rows n_cols).foldl (fun s cell => body cell.1 cell.2 s) s := by
  unfold gridOrder
  rw [foldl_flatMap_eq, forLoop_eq_foldl]
  congr 1
  funext s i_row
  rw [List.foldl_map, forLoop_eq_foldl]

/-- The row and column loops of the source process the cells in `gridOrder`. -/
theorem referenceRun_eq_referenceRunIn (g : GridFiles) :
    referenceRun g = referenceRunIn g (gridOrder g.n_rows g.n_cols) := by
  unfold referenceRun referenceRunIn
  have h : (fun i_year => forLoop 12 (fun i_month => forLoop g.n_rows (fun i_row =>
      forLoop g.n_cols (fun i_col => cellBody g i_year i_month i_row i_col)))) =
      (fun i_year => forLoop 12 (fun i_month s => (gridOrder g.n_rows g.n_cols).foldl
        (fun s cell => cellBody g i_year i_month cell.1 cell.2 s) s)) := by
    funext i_year
    have hb : (fun i_month => forLoop g.n_rows (fun i_row =>
        forLoop g.n_cols (fun i_col => cellBody g i_year i_month i_row i_col))) =
        (fun i_month s => (gridOrder g.n_rows g.n_cols).foldl
          (fun s cell => cellBody g i_year i_month cell.1 cell.2 s) s) := by
      funext i_month s
      exact rowColLoops_eq_foldl g.n_rows g.n_cols (fun r c => cellBody g i_year i_month r c) s
    rw [hb]
  rw [h]

/-- The cells of `gridOrder` are the cells of the grid. -/
theorem mem_gridOrder (n_rows n_cols i_row i_col : Nat) :
    (i_row, i_col) ∈ gridOrder n_rows n_cols ↔ i_row < n_rows ∧ i_col < n_cols := by
  simp [gridOrder]

/-- No cell occurs twice in `gridOrder`. -/
theorem gridOrder_nodup (n_rows n_cols : Nat) : (gridOrder n_rows n_cols).Nodup := by
  unfold gridOrder
  rw [List.nodup_flatMap]
  refine ⟨fun r _ => ?_, ?_⟩
  · exact (List.nodup_range n_cols).map (fun a b h => (Prod.mk.inj h).2)
  · refine List.Pairwise.imp ?_ (List.nodup_range n_rows)
    intro a b hab
    simp only [Function.onFun, List.disjoint_left, List.mem_map, not_exists, not_and]
    rintro x ⟨c, _, rfl⟩ c2 _ h
    exact hab (Prod.mk.inj h).1.symm

/-- One sweep over the cells of a month: every cell of `order` makes one step
from its own storage, the other cells keep theirs, and in the fourth year the
results are appended to the two files in the order of the sweep. -/
theorem sweep_spec (g : GridFiles) (i_year i_month : Nat) (order : List (Nat × Nat))
    (hnd : order.Nodup) (s : BudykoWorld) :
    let s' := order.foldl (fun s cell => cellBody g i_year i_month cell.1 cell.2 s) s
    (∀ r c, s'.f_V_store r c =
        if (r, c) ∈ order then
          (cellStep g i_month r c (s.f_V_store r c)).map BucketResult.newStorage
        else s.f_V_store r c) ∧
      s'.Runoff_5km = (if i_year = 3 then s.Runoff_5km ++ order.map (fun cell =>
          (cellStep g i_month cell.1 cell.2 (s.f_V_store cell.1 cell.2)).map
            BucketResult.runoff) else s.Runoff_5km) ∧
      s'.Ea_5km = (if i_year = 3 then s.Ea_5km ++ order.map (fun cell =>
          (cellStep g i_month cell.1 cell.2 (s.f_V_store cell.1 cell.2)).map
            BucketResult.actualEvap) else s.Ea_5km) := by
  induction order generalizing s with
  | nil => simp
  | cons a rest ih =>
    obtain ⟨ha, hrest⟩ := List.nodup_cons.mp hnd
    obtain ⟨hV, hQ, hE⟩ := ih hrest (cellBody g i_year i_month a.1 a.2 s)
    have hkeep : ∀ cell ∈ rest,
        (cellBody g i_year i_month a.1 a.2 s).f_V_store cell.1 cell.2 =
          s.f_V_store cell.1 cell.2 := by
      intro cell hc
      have hne : ¬ (cell.1 = a.1 ∧ cell.2 = a.2) := by
        rintro ⟨h1, h2⟩
        exact ha (by rwa [← Prod.ext h1 h2])
      simp [cellBody, hne]
    simp only [List.foldl_cons]
    refine ⟨fun r c => ?_, ?_, ?_⟩
    · rw [hV r c]
      by_cases hm : (r, c) ∈ rest
      · have h1 := hkeep (r, c) hm
        simp only at h1
        simp [hm, h1]
      · by_cases hra : (r, c) = a
        · subst hra
          simp [hm, cellBody]
        · have hne : ¬ (r = a.1 ∧ c = a.2) := fun h => hra (Prod.ext h.1 h.2)
          simp [hm, hra, cellBody, hne]
    · rw [hQ]
      have hmap : rest.map (fun cell => (cellStep g i_month cell.1 cell.2
          ((cellBody g i_year i_month a.1 a.2 s).f_V_store cell.1 cell.2)).map
            BucketResult.runoff) = rest.map (fun cell => (cellStep g i_month cell.1 cell.2
          (s.f_V_store cell.1 cell.2)).map BucketResult.runoff) :=
        List.map_congr_left (fun cell hc => by rw [hkeep cell hc])
      rw [hmap]
      by_cases hy : i_year = 3 <;> simp [hy, cellBody]
    · rw [hE]
      have hmap : rest.map (fun cell => (cellStep g i_month cell.1 cell.2
          ((cellBody g i_year i_month a.1 a.2 s).f_V_store cell.1 cell.2)).map
            BucketResult.actualEvap) = rest.map (fun cell => (cellStep g i_month cell.1 cell.2
          (s.f_V_store cell.1 cell.2)).map BucketResult.actualEvap) :=
        List.map_congr_left (fun cell hc => by rw [hkeep cell hc])
      rw [hmap]
      by_cases hy : i_year = 3 <;> simp [hy, cellBody]

/-- In the closed form a cell of `order` steps to its next result. -/
theorem cellStep_trajectoryWorld (g : GridFiles) (order : List (Nat × Nat))
    (i_year i_month nlog : Nat) (hm : i_month < 12) (cell : Nat × Nat) (hc : cell ∈ order) :
    cellStep g i_month cell.1 cell.2
        ((trajectoryWorld g order (12 * i_year + i_month) nlog).f_V_store cell.1 cell.2) =
      cellResult g cell.1 cell.2 (12 * i_year + i_month) := by
  have hmod : (12 * i_year + i_month) % 12 = i_month := by omega
  simp only [trajectoryWorld, cellResult, hmod, hc, if_true]

/-- A sweep in month `i_month` of year `i_year` advances the closed form by
one step, and by one written month in the fourth year. -/
theorem sweep_trajectoryWorld (g : GridFiles) (order : List (Nat × Nat)) (hnd : order.Nodup)
    (i_year i_month : Nat) (hm : i_month < 12) :
    order.foldl (fun s cell => cellBody g i_year i_month cell.1 cell.2 s)
        (trajectoryWorld g order (12 * i_year + i_month) (if i_year = 3 then i_month else 0)) =
      trajectoryWorld g order (12 * i_year + i_month + 1)
        (if i_year = 3 then i_month + 1 else 0) := by
  obtain ⟨hV, hQ, hE⟩ := sweep_spec g i_year i_month order hnd
    (trajectoryWorld g order (12 * i_year + i_month) (if i_year = 3 then i_month else 0))
  have hmod : (12 * i_year + i_month) % 12 = i_month := by omega
  have hstep := cellStep_trajectoryWorld g order i_year i_month
    (if i_year = 3 then i_month else 0) hm
  have hmapQ : order.map (fun cell => (cellStep g i_month cell.1 cell.2
      ((trajectoryWorld g order (12 * i_year + i_month)
        (if i_year = 3 then i_month else 0)).f_V_store cell.1 cell.2)).map
          BucketResult.runoff) =
      order.map (fun cell => (cellResult g cell.1 cell.2 (12 * i_year + i_month)).map
        BucketResult.runoff) :=
    List.map_congr_left (fun cell hc => by rw [hstep cell hc])
  have hmapE : order.map (fun cell => (cellStep g i_month cell.1 cell.2
      ((trajectoryWorld g order (12 * i_year + i_month)
        (if i_year = 3 then i_month else 0)).f_V_store cell.1 cell.2)).map
          BucketResult.actualEvap) =
      order.map (fun cell => (cellResult g cell.1 cell.2 (12 * i_year + i_month)).map
        BucketResult.actualEvap) :=
    List.map_congr_left (fun cell hc => by rw [hstep cell hc])
  apply BudykoWorld.ext
  · funext r c
    rw [hV r c]
    by_cases hc : (r, c) ∈ order
    · rw [if_pos hc, hstep (r, c) hc]
      simp only [trajectoryWorld, hc, if_true, cellStorage, cellResult, hmod]
    · simp only [trajectoryWorld, hc, if_false]
  · rw [hQ, hmapQ]
    by_cases hy : i_year = 3
    · subst hy
      simp only [trajectoryWorld, if_true, List.range_succ, List.flatMap_append,
        List.flatMap_cons, List.flatMap_nil, List.append_nil]
    · simp only [hy, if_false, trajectoryWorld]
  · rw [hE, hmapE]
    by_cases hy : i_year = 3
    · subst hy
      simp only [trajectoryWorld, if_true, List.range_succ, List.flatMap_append,
        List.flatMap_cons, List.flatMap_nil, List.append_nil]
    · simp only [hy, if_false, trajectoryWorld]

/-- The month loop of year `i_year`, run for `j` months. -/
theorem monthLoop_trajectoryWorld (g : GridFiles) (order : List (Nat × Nat))
    (hnd : order.Nodup) (i_year j : Nat) (hj : j ≤ 12) :
    forLoop j (fun i_month s =>
        order.foldl (fun s cell => cellBody g i_year i_month cell.1 cell.2 s) s)
        (trajectoryWorld g order (12 * i_year) 0) =
      trajectoryWorld g order (12 * i_year + j) (if i_year = 3 then j else 0) := by
  induction j with
  | zero =>
    have h0 : (if i_year = 3 then 0 else 0) = 0 := by split_ifs <;> rfl
    rw [h0]
    rfl
  | succ j ih =>
    rw [forLoop_succ, ih (by omega)]
    exact sweep_trajectoryWorld g order hnd i_year j (by omega)

/-- The year loop, run for `y ≤ 3` spin-up years, writes nothing. -/
theorem spinUp_trajectoryWorld (g : GridFiles) (order : List (Nat × Nat))
    (hnd : order.Nodup) (y : Nat) (hy : y ≤ 3) :
    forLoop y (fun i_year => forLoop 12 (fun i_month s =>
        order.foldl (fun s cell => cellBody g i_year i_month cell.1 cell.2 s) s))
        (initialWorld g) = trajectoryWorld g order (12 * y) 0 := by
  induction y with
  | zero =>
    apply BudykoWorld.ext
    · funext r c
      simp [forLoop, initialWorld, trajectoryWorld, cellStorage]
    · simp [forLoop, initialWorld, trajectoryWorld]
    · simp [forLoop, initialWorld, trajectoryWorld]
  | succ y ih =>
    rw [forLoop_succ, ih (by omega), monthLoop_trajectoryWorld g order hnd y 12 le_rfl]
    have h3 : y ≠ 3 := by omega
    simp only [h3, if_false]
    congr 1

/-- The year loop in closed form: after the four years every cell has made 48
steps of its own, and the files hold the twelve months of the fourth year. -/
theorem referenceRunIn_eq (g : GridFiles) (order : List (Nat × Nat)) (hnd : order.Nodup) :
    referenceRunIn g order = trajectoryWorld g order 48 12 := by
  unfold referenceRunIn
  rw [forLoop_succ, spinUp_trajectoryWorld g order hnd 3 le_rfl,
    monthLoop_trajectoryWorld g order hnd 3 12 le_rfl]
  rfl

/-- The size of a file written month by month. -/
theorem length_flatMap_range_map {α β : Type} (n : Nat) (l : List α) (f : Nat → α → β) :
    ((List.range n).flatMap (fun m => l.map (f m))).length = n * l.length := by
  induction n with
  | zero => simp
  | succ n ih =>
    rw [List.range_succ, List.flatMap_append, List.length_append, ih]
    simp [Nat.succ_mul]

/-- The entry of month `m` and position `k` in a file written month by month. -/
theorem getElem?_flatMap_range_map {α β : Type} (n : Nat) (l : List α) (f : Nat → α → β)
    (m k : Nat) (hm : m < n) (hk : k < l.length) :
    ((List.range n).flatMap (fun m => l.map (f m)))[m * l.length + k]? =
      (l[k]?).map (f m) := by
  induction n with
  | zero => omega
  | succ n ih =>
    rw [List.range_succ, List.flatMap_append]
    have hlen := length_flatMap_range_map n l f
    rcases Nat.lt_succ_iff_lt_or_eq.mp hm with hlt | heq
    · have hidx : m * l.length + k < n * l.length := by
        have : (m + 1) * l.length ≤ n * l.length := Nat.mul_le_mul_right _ hlt
        rw [Nat.succ_mul] at this
        omega
      rw [List.getElem?_append_left (by rw [hlen]; exact hidx)]
      exact ih hlt
    · subst heq
      rw [List.getElem?_append_right (by rw [hlen]; omega), hlen]
      simp

/-- The retained year of the reference block: for a cell at position `k` of
the processing order and a month `m`, the value written to `Runoff_5km.asc`
and to `Ea_5km.asc` is the runoff and the actual evaporation of step number
`36 + m` of that cell. -/
theorem referenceRunIn_output (g : GridFiles) (order : List (Nat × Nat)) (hnd : order.Nodup)
    (m k i_row i_col : Nat) (hm : m < 12) (hk : order[k]? = some (i_row, i_col)) :
    (referenceRunIn g order).Runoff_5km[m * order.length + k]? =
        some ((cellResult g i_row i_col (36 + m)).map BucketResult.runoff) ∧
      (referenceRunIn g order).Ea_5km[m * order.length + k]? =
        some ((cellResult g i_row i_col (36 + m)).map BucketResult.actualEvap) := by
  have hlt : k < order.length := by
    by_contra h
    rw [List.getElem?_eq_none (not_lt.mp h)] at hk
    cases hk
  rw [referenceRunIn_eq g order hnd]
  constructor
  · show ((List.range 12).flatMap (fun m => order.map (fun cell =>
      (cellResult g cell.1 cell.2 (36 + m)).map BucketResult.runoff)))[m * order.length + k]? = _
    rw [getElem?_flatMap_range_map 12 order _ m k hm hlt, hk]
    rfl
  · show ((List.range 12).flatMap (fun m => order.map (fun cell =>
      (cellResult g cell.1 cell.2 (36 + m)).map BucketResult.actualEvap)))[m * order.length + k]? = _
    rw [getElem?_flatMap_range_map 12 order _ m k hm hlt, hk]
    rfl

/-- The tasmax file of the first month opens: `out` is empty before. -/
theorem tasmaxOpens_zero : tasmaxOpens 0 = true := by
  decide

/-- The tasmax file of a later month does not open: the path starts with the
rn name of the month before. -/
theorem tasmaxOpens_succ (i_month : Nat) : tasmaxOpens (i_month + 1) = false := by
  simp [tasmaxOpens, tasmaxPath, monthPaths, outBefore]

/-- In the first month `f_Tmax` is the maximum temperature of the cell. -/
theorem f_Tmax_zero (g : GridFiles) (i_row i_col : Nat) :
    f_Tmax g 0 i_row i_col = g.tasmax 0 i_row i_col := by
  simp [f_Tmax, tasmaxOpens_zero]

/-- In every later month `f_Tmax` is, for every cell, the maximum temperature
of the last cell of the grid in the first month. -/
theorem f_Tmax_succ (g : GridFiles) (i_month i_row i_col : Nat) :
    f_Tmax g (i_month + 1) i_row i_col = g.tasmax 0 (g.n_rows - 1) (g.n_cols - 1) := by
  induction i_month generalizing i_row i_col with
  | zero => simp [f_Tmax, tasmaxOpens_zero, tasmaxOpens_succ]
  | succ k ih =>
    have h : f_Tmax g (k + 1 + 1) i_row i_col = f_Tmax g (k + 1) (g.n_rows - 1) (g.n_cols - 1) := by
      simp [f_Tmax, tasmaxOpens_succ]
    rw [h, ih]

/-- The variable `f_Tmax` of a cell-month is the same in two runs whose grids
agree on the cell and on the first maximum temperature of the last cell. -/
theorem f_Tmax_congr {g g' : GridFiles} {i_row i_col : Nat} (h : AgreeAt g g' i_row i_col)
    (hlast : g.tasmax 0 (g.n_rows - 1) (g.n_cols - 1) =
      g'.tasmax 0 (g'.n_rows - 1) (g'.n_cols - 1))
    (i_month : Nat) : f_Tmax g i_month i_row i_col = f_Tmax g' i_month i_row i_col := by
  cases i_month with
  | zero => rw [f_Tmax_zero, f_Tmax_zero, (h.2.2.2 0 (by norm_num)).2.2]
  | succ k => rw [f_Tmax_succ, f_Tmax_succ, hlast]

/-- The net radiation of a cell-month depends on the grids of that cell and on
the first maximum temperature of the last cell. -/
theorem d_Rn_congr {g g' : GridFiles} {i_row i_col : Nat} (h : AgreeAt g g' i_row i_col)
    (hlast : g.tasmax 0 (g.n_rows - 1) (g.n_cols - 1) =
      g'.tasmax 0 (g'.n_rows - 1) (g'.n_cols - 1))
    (i_month : Nat) (hm : i_month < 12) : d_Rn g i_month i_row i_col = d_Rn g' i_month i_row i_col := by
  have ht := f_Tmax_congr h hlast i_month
  obtain ⟨h1, h2, _, h4⟩ := h
  obtain ⟨_, h6, _⟩ := h4 i_month hm
  simp only [d_Rn, h1, h2, h6, ht]

/-- The potential evaporation of a cell-month depends on the grids of that cell
and on the first maximum temperature of the last cell. -/
theorem f_E_pot_congr {g g' : GridFiles} {i_row i_col : Nat} (h : AgreeAt g g' i_row i_col)
    (hlast : g.tasmax 0 (g.n_rows - 1) (g.n_cols - 1) =
      g'.tasmax 0 (g'.n_rows - 1) (g'.n_cols - 1))
    (i_month : Nat) (hm : i_month < 12) :
    f_E_pot g i_month i_row i_col = f_E_pot g' i_month i_row i_col := by
  have hr := d_Rn_congr h hlast i_month hm
  have ht := f_Tmax_congr h hlast i_month
  obtain ⟨h1, _, _, h4⟩ := h
  obtain ⟨_, h6, _⟩ := h4 i_month hm
  simp only [f_E_pot, hr, h1, h6, ht]

/-- The step of a cell depends on the grids of that cell and on the first
maximum temperature of the last cell. -/
theorem cellStep_congr {g g' : GridFiles} {i_row i_col : Nat} (h : AgreeAt g g' i_row i_col)
    (hlast : g.tasmax 0 (g.n_rows - 1) (g.n_cols - 1) =
      g'.tasmax 0 (g'.n_rows - 1) (g'.n_cols - 1))
    (i_month : Nat) (hm : i_month < 12) (v : Option ℝ) :
    cellStep g i_month i_row i_col v = cellStep g' i_month i_row i_col v := by
  have he := f_E_pot_congr h hlast i_month hm
  obtain ⟨_, _, h3, h4⟩ := h
  obtain ⟨h5, _, _⟩ := h4 i_month hm
  simp only [cellStep, he, h3, h5]

/-- The storage of a cell depends on the grids of that cell and on the first
maximum temperature of the last cell. -/
theorem cellStorage_congr {g g' : GridFiles} {i_row i_col : Nat} (h : AgreeAt g g' i_row i_col)
    (hlast : g.tasmax 0 (g.n_rows - 1) (g.n_cols - 1) =
      g'.tasmax 0 (g'.n_rows - 1) (g'.n_cols - 1))
    (k : Nat) : cellStorage g i_row i_col k = cellStorage g' i_row i_col k := by
  induction k with
  | zero => simp only [cellStorage, h.2.2.1]
  | succ k ih =>
    simp only [cellStorage, ih, cellStep_congr h hlast (k % 12) (Nat.mod_lt _ (by norm_num))]

/-- The trajectory of a cell depends on the grids of that cell and on the first
maximum temperature of the last cell. -/
theorem cellResult_congr {g g' : GridFiles} {i_row i_col : Nat} (h : AgreeAt g g' i_row i_col)
    (hlast : g.tasmax 0 (g.n_rows - 1) (g.n_cols - 1) =
      g'.tasmax 0 (g'.n_rows - 1) (g'.n_cols - 1))
    (k : Nat) : cellResult g i_row i_col k = cellResult g' i_row i_col k := by
  simp only [cellResult, cellStorage_congr h hlast k,
    cellStep_congr h hlast (k % 12) (Nat.mod_lt _ (by norm_num))]

/-- The position of a cell in the order of the row and column loops. -/
theorem gridOrder_getElem? (n_rows n_cols i_row i_col : Nat) (hr : i_row < n_rows)
    (hc : i_col < n_cols) :
    (gridOrder n_rows n_cols)[i_row * n_cols + i_col]? = some (i_row, i_col) := by
  have h := getElem?_flatMap_range_map n_rows (List.range n_cols)
    (fun r c => (r, c)) i_row i_col hr (by simpa using hc)
  simp only [List.length_range] at h
  rw [gridOrder, h, List.getElem?_range hc]
  rfl

/-- The number of cells of `gridOrder`. -/
theorem gridOrder_length (n_rows n_cols : Nat) :
    (gridOrder n_rows n_cols).length = n_rows * n_cols := by
  rw [gridOrder, length_flatMap_range_map, List.length_range]

/-! ### The claims on the driver -/

/-- C8 (code evaluated at the failing input). For one valid cell (elevation 0,
precipitation 50, temperatures 15 and 25 in every month, capacity 100,
`kRs = 0.17`, latitude 0) `RunBudykoBucketModel_5km` returns four matrices
that hold `NA_REAL` in every month: no bucket step is executed. -/
theorem RunBudykoBucketModel_5km_valid_cell :
    RunBudykoBucketModel_5km (none : Option ℚ) [some 0] (List.replicate 12 (some 50))
        (List.replicate 12 (some 15)) (List.replicate 12 (some 25)) [some 100]
        [some (17 / 100)] [some 0] 1 (fun _ _ => some 0) =
      some { R_E_act := List.replicate 12 none, R_E_pot := List.replicate 12 none,
             R_Q_run := List.replicate 12 none, R_Net_rad := List.replicate 12 none } := by
  decide

/-- C9. Missing-cell output: for every input with `n_rows` cells and every cell
`i` that is no-data in a required input, each of the four returned matrices
holds exactly `NA_REAL` at that cell in each of the 12 months. -/
theorem RunBudykoBucketModel_5km_missing_cell {α : Type} (NA_REAL : α)
    (R_dem R_rain R_tmin R_tmax R_V_max R_kRs R_lats_radians : List α) (n_rows : Nat)
    (uninit : Nat → Nat → α) (i : Nat) (hi : i < n_rows)
    (_hmiss : CellMissing NA_REAL R_dem R_rain R_tmin R_tmax R_V_max R_kRs R_lats_radians
      n_rows i)
    (j : Nat) (hj : j < 12) (out : Outputs α)
    (hout : RunBudykoBucketModel_5km NA_REAL R_dem R_rain R_tmin R_tmax R_V_max R_kRs
      R_lats_radians n_rows uninit = some out) :
    out.R_E_act[i + j * n_rows]? = some NA_REAL ∧
      out.R_E_pot[i + j * n_rows]? = some NA_REAL ∧
      out.R_Q_run[i + j * n_rows]? = some NA_REAL ∧
      out.R_Net_rad[i + j * n_rows]? = some NA_REAL :=
  RunBudykoBucketModel_5km_all_NA NA_REAL R_dem R_rain R_tmin R_tmax R_V_max R_kRs
    R_lats_radians n_rows uninit i j hi hj out hout

/-- A run of two cells whose second cell has no elevation: the function
returns, and in December (`j = 11`) the four matrices hold the sentinel for
that cell. -/
theorem RunBudykoBucketModel_5km_missing_cell_witness :
    CellMissing (none : Option Nat) [some 5, none] [] [] [] [some 1, some 1]
        [some 1, some 1] [some 0, some 0] 2 1 ∧
      ∃ out, RunBudykoBucketModel_5km (none : Option Nat) [some 5, none] [] [] []
          [some 1, some 1] [some 1, some 1] [some 0, some 0] 2 (fun _ _ => some 7) =
          some out ∧
        out.R_E_act[1 + 11 * 2]? = some none ∧ out.R_E_pot[1 + 11 * 2]? = some none ∧
        out.R_Q_run[1 + 11 * 2]? = some none ∧ out.R_Net_rad[1 + 11 * 2]? = some none := by
  have hout : RunBudykoBucketModel_5km (none : Option Nat) [some 5, none] [] [] []
      [some 1, some 1] [some 1, some 1] [some 0, some 0] 2 (fun _ _ => some 7) =
      some { R_E_act := List.replicate 24 none, R_E_pot := List.replicate 24 none,
             R_Q_run := List.replicate 24 none, R_Net_rad := List.replicate 24 none } := by
    decide
  exact ⟨Or.inl rfl, _, hout,
    RunBudykoBucketModel_5km_missing_cell (none : Option Nat) [some 5, none] [] [] []
      [some 1, some 1] [some 1, some 1] [some 0, some 0] 2 (fun _ _ => some 7) 1 (by decide)
      (Or.inl rfl) 11 (by decide) _ hout⟩

/-- The values written for a cell by the year loop of the reference block are
the same in two runs, whatever the processing orders, when the grids agree on
the cell and on the first maximum temperature of the last cell. -/
theorem referenceRunIn_independent (g g' : GridFiles) (order order' : List (Nat × Nat))
    (hnd : order.Nodup) (hnd' : order'.Nodup) (i_row i_col k k' m : Nat)
    (hag : AgreeAt g g' i_row i_col)
    (hlast : g.tasmax 0 (g.n_rows - 1) (g.n_cols - 1) =
      g'.tasmax 0 (g'.n_rows - 1) (g'.n_cols - 1))
    (hm : m < 12) (hk : order[k]? = some (i_row, i_col))
    (hk' : order'[k']? = some (i_row, i_col)) :
    (referenceRunIn g order).Runoff_5km[m * order.length + k]? =
        (referenceRunIn g' order').Runoff_5km[m * order'.length + k']? ∧
      (referenceRunIn g order).Ea_5km[m * order.length + k]? =
        (referenceRunIn g' order').Ea_5km[m * order'.length + k']? := by
  obtain ⟨h1, h2⟩ := referenceRunIn_output g order hnd m k i_row i_col hm hk
  obtain ⟨h3, h4⟩ := referenceRunIn_output g' order' hnd' m k' i_row i_col hm hk'
  rw [h1, h2, h3, h4, cellResult_congr hag hlast (36 + m)]
  exact ⟨rfl, rfl⟩

/-! ### The runoff rule and the empty bucket -/

/-- The actual evaporation of a bucket step is the value of `f_E_act`. -/
theorem bucketStep_actualEvap {s p e vmax : ℝ} {r : BucketResult}
    (h : bucketStep s p e vmax = some r) : f_E_act e (s + p) = some r.actualEvap := by
  unfold bucketStep at h
  cases he : f_E_act e (s + p) with
  | none => simp [he] at h
  | some a =>
    simp only [he, Option.bind_eq_bind, Option.some_bind, Option.pure_def] at h
    split_ifs at h <;> cases h <;> rfl

/-- A step that fills the bucket exactly: storage 1, precipitation 1, no
evaporative demand, capacity 2. -/
theorem bucketStep_exactly_full :
    bucketStep 1 1 0 2 = some { actualEvap := 0, runoff := 0, newStorage := 2 } := by
  have hE : f_E_act 0 (1 + 1) = some 0 := by
    rw [f_E_act_of_pos (by norm_num) le_rfl (Or.inl (by norm_num))]
    simp
  rw [bucketStep_of_evap hE]
  norm_num

/-- C14. Runoff rule of the bucket step: with the provisional storage
`V' = storage + precipitation - actualEvap`, if `V' > maxCapacity` then
`runoff = V' - maxCapacity` and `newStorage = maxCapacity`; otherwise, also
when `V' = maxCapacity`, `runoff = 0` and `newStorage = V'`. -/
theorem bucketStep_runoff_rule (storage precipitation potentialEvap maxCapacity : ℝ)
    (r : BucketResult)
    (h : bucketStep storage precipitation potentialEvap maxCapacity = some r) :
    (storage + precipitation - r.actualEvap > maxCapacity →
        r.runoff = storage + precipitation - r.actualEvap - maxCapacity ∧
          r.newStorage = maxCapacity) ∧
      (¬ storage + precipitation - r.actualEvap > maxCapacity →
        r.runoff = 0 ∧ r.newStorage = storage + precipitation - r.actualEvap) ∧
      (storage + precipitation - r.actualEvap = maxCapacity →
        r.runoff = 0 ∧ r.newStorage = storage + precipitation - r.actualEvap) := by
  have ha := bucketStep_actualEvap h
  have h2 := @bucketStep_of_evap _ _ _ maxCapacity _ ha
  rw [h] at h2
  have hr := Option.some.inj h2
  have hq : r.runoff = max (storage + precipitation - r.actualEvap - maxCapacity) 0 := by
    rw [hr]
  have hv : r.newStorage = min (storage + precipitation - r.actualEvap) maxCapacity := by
    rw [hr]
  refine ⟨fun hgt => ?_, fun hle => ?_, fun heq => ?_⟩
  · rw [hq, hv, max_eq_left (by linarith), min_eq_right (by linarith)]
    exact ⟨rfl, rfl⟩
  · rw [hq, hv, max_eq_right (by linarith [not_lt.mp hle]), min_eq_left (not_lt.mp hle)]
    exact ⟨rfl, rfl⟩
  · rw [hq, hv, max_eq_right (by linarith), min_eq_left (by linarith)]
    exact ⟨rfl, rfl⟩

/-- The runoff rule at a step that fills the bucket exactly (`V' = 2`, the
capacity): no runoff. -/
theorem bucketStep_runoff_rule_witness :
    bucketStep 1 1 0 2 = some { actualEvap := 0, runoff := 0, newStorage := 2 } ∧
      ((1 : ℝ) + 1 - 0 = 2 → (0 : ℝ) = 0 ∧ (2 : ℝ) = 1 + 1 - 0) :=
  ⟨bucketStep_exactly_full,
    (bucketStep_runoff_rule 1 1 0 2 _ bucketStep_exactly_full).2.2⟩

/-- C15 (counterexample). With storage 0, precipitation 0 and potential
evaporation 0 (capacity 1) the divisor `pow(pow(0,1.9)+pow(0,1.9),1.9)` is 0:
the division `0/0` of `f_E_act` is undefined and the step has no result. -/
theorem bucketStep_empty_zero_demand :
    ((0 + 0 : ℝ) ^ (1.9 : ℝ) + (0 : ℝ) ^ (1.9 : ℝ)) ^ (1.9 : ℝ) = 0 ∧
      f_E_act 0 (0 + 0) = none ∧ bucketStep 0 0 0 1 = none := by
  have h0 : (0 : ℝ) ^ (1.9 : ℝ) = 0 := Real.zero_rpow (by norm_num)
  have hd : ((0 + 0 : ℝ) ^ (1.9 : ℝ) + (0 : ℝ) ^ (1.9 : ℝ)) ^ (1.9 : ℝ) = 0 := by
    rw [add_zero, h0, add_zero, h0]
  have hE : f_E_act 0 (0 + 0) = none := by
    simp [f_E_act, c_pow, c_div, h0]
  refine ⟨hd, hE, ?_⟩
  show (f_E_act 0 (0 + 0)).bind _ = none
  rw [hE]
  rfl

/-- C15 (amended). Empty-bucket edge case: for every potential evaporation
`> 0` and every capacity `≥ 0`, the bucket step with storage 0 and
precipitation 0 has a positive divisor and yields `actualEvap = 0`,
`runoff = 0` and `newStorage = 0`. -/
theorem bucketStep_empty_bucket (potentialEvap maxCapacity : ℝ) (he : 0 < potentialEvap)
    (hv : 0 ≤ maxCapacity) :
    0 < ((0 + 0 : ℝ) ^ (1.9 : ℝ) + potentialEvap ^ (1.9 : ℝ)) ^ (1.9 : ℝ) ∧
      bucketStep 0 0 potentialEvap maxCapacity =
        some { actualEvap := 0, runoff := 0, newStorage := 0 } :=
  ⟨f_E_act_denominator_pos (by norm_num) he.le (Or.inr he), bucketStep_no_water he hv⟩

/-- The empty bucket with potential evaporation 1 and capacity 1. -/
theorem bucketStep_empty_bucket_witness :
    (0 : ℝ) < 1 ∧ (0 : ℝ) ≤ 1 ∧
      bucketStep 0 0 1 1 = some { actualEvap := 0, runoff := 0, newStorage := 0 } :=
  ⟨one_pos, zero_le_one, (bucketStep_empty_bucket 1 1 one_pos zero_le_one).2⟩

/-! ### `CalculatePTEvaporation` -/

/-- The value of `CalculatePTEvaporation` where every divisor is nonzero and
the pressure base is nonnegative. -/
theorem CalculatePTEvaporation_eq_some {T Z : ℝ} (Rn : ℝ)
    (hb : 0 ≤ (293 - 0.0065 * Z) / 293) (h1 : T + 273.3 ≠ 0) (h2 : d_lambda T ≠ 0)
    (h3 : (T + 237.3) ^ 2 ≠ 0) (h4 : d_Delta T ≠ 0)
    (h5 : d_lambda T * (1 + d_gamma T Z / d_Delta T) ≠ 0) :
    CalculatePTEvaporation T Z Rn =
      some (1.26 * Rn / (d_lambda T * (1 + d_gamma T Z / d_Delta T))) := by
  simp only [d_lambda, d_gamma, d_Delta, d_P, d_esT] at h2 h4 h5
  simp only [CalculatePTEvaporation, c_pow, c_div, hb, h1, h2, h3, h4, h5, if_true, if_false,
    Option.bind_eq_bind, Option.some_bind, Option.pure_def, d_lambda, d_gamma, d_Delta, d_P,
    d_esT]

/-- On physical inputs the divisors of `CalculatePTEvaporation` are positive and
the function has the value `1.26·Rn / (lambda·(1 + gamma/Delta))`. -/
theorem CalculatePTEvaporation_value {T Z : ℝ} (hT1 : -237.3 < T) (hT2 : T < 1059)
    (hZ : Z < 45076) :
    0 < T + 273.3 ∧ 0 < d_lambda T ∧ 0 < (T + 237.3) ^ 2 ∧ 0 < d_Delta T ∧
      0 < d_gamma T Z ∧ 0 < d_lambda T * (1 + d_gamma T Z / d_Delta T) ∧
      ∀ Rn : ℝ, CalculatePTEvaporation T Z Rn =
        some (1.26 * Rn / (d_lambda T * (1 + d_gamma T Z / d_Delta T))) := by
  have hbase : 0 < (293 - 0.0065 * Z) / 293 := by
    apply div_pos _ (by norm_num)
    linarith
  have h1 : 0 < T + 273.3 := by linarith
  have hl : 0 < d_lambda T := by unfold d_lambda; linarith
  have h3 : 0 < (T + 237.3) ^ 2 := by
    have : 0 < T + 237.3 := by linarith
    positivity
  have hes : 0 < d_esT T := by unfold d_esT; positivity
  have hD : 0 < d_Delta T := by unfold d_Delta; exact div_pos (by linarith) h3
  have hP : 0 < d_P Z := by
    unfold d_P
    exact mul_pos (by norm_num) (Real.rpow_pos_of_pos hbase _)
  have hg : 0 < d_gamma T Z := by
    unfold d_gamma
    exact div_pos (mul_pos (by norm_num) hP) hl
  have hden : 0 < d_lambda T * (1 + d_gamma T Z / d_Delta T) :=
    mul_pos hl (by have := div_pos hg hD; linarith)
  exact ⟨h1, hl, h3, hD, hg, hden, fun Rn =>
    CalculatePTEvaporation_eq_some Rn hbase.le (ne_of_gt h1) (ne_of_gt hl) (ne_of_gt h3)
      (ne_of_gt hD) (ne_of_gt hden)⟩

/-- C17. On physical inputs (`-237.3 < T < 1059`, `Z < 45076`) every divisor
of `CalculatePTEvaporation` is nonzero (`T + 273.3`, the latent heat,
`(T + 237.3)^2`, the slope `Delta`, and `lambda * (1 + gamma / Delta)`), and
the result is `k * Rn` for a factor `k > 0` that does not depend on `Rn`; so
the result is positive exactly when `Rn` is, and is 0 when `Rn = 0`. -/
theorem CalculatePTEvaporation_sign (T Z : ℝ) (hT1 : -237.3 < T) (hT2 : T < 1059)
    (hZ : Z < 45076) :
    T + 273.3 ≠ 0 ∧ d_lambda T ≠ 0 ∧ (T + 237.3) ^ 2 ≠ 0 ∧ d_Delta T ≠ 0 ∧
      d_lambda T * (1 + d_gamma T Z / d_Delta T) ≠ 0 ∧
      (∀ Rn v : ℝ, CalculatePTEvaporation T Z Rn = some v → (0 < v ↔ 0 < Rn)) ∧
      CalculatePTEvaporation T Z 0 = some 0 ∧
      ∃ k : ℝ, 0 < k ∧ ∀ Rn : ℝ, CalculatePTEvaporation T Z Rn = some (k * Rn) := by
  obtain ⟨h1, hl, h3, hD, _, hden, hv⟩ := CalculatePTEvaporation_value hT1 hT2 hZ
  have hval : ∀ Rn : ℝ, CalculatePTEvaporation T Z Rn =
      some (1.26 / (d_lambda T * (1 + d_gamma T Z / d_Delta T)) * Rn) := by
    intro Rn
    rw [hv Rn]
    congr 1
    ring
  have hk : 0 < 1.26 / (d_lambda T * (1 + d_gamma T Z / d_Delta T)) :=
    div_pos (by norm_num) hden
  refine ⟨ne_of_gt h1, ne_of_gt hl, ne_of_gt h3, ne_of_gt hD, ne_of_gt hden, ?_, ?_,
    _, hk, hval⟩
  · intro Rn v hv
    rw [hval Rn] at hv
    rw [← Option.some.inj hv]
    constructor
    · intro h
      by_contra hn
      have : 1.26 / (d_lambda T * (1 + d_gamma T Z / d_Delta T)) * Rn ≤ 0 :=
        mul_nonpos_of_nonneg_of_nonpos hk.le (not_lt.mp hn)
      linarith
    · intro h
      exact mul_pos hk h
  · rw [hval 0, mul_zero]

/-- The potential evaporation at the mean temperature 20 and sea level. -/
theorem CalculatePTEvaporation_sign_witness :
    (-237.3 : ℝ) < 20 ∧ (20 : ℝ) < 1059 ∧ (0 : ℝ) < 45076 ∧
      CalculatePTEvaporation 20 0 0 = some 0 :=
  ⟨by norm_num, by norm_num, by norm_num,
    (CalculatePTEvaporation_sign 20 0 (by norm_num) (by norm_num)
      (by norm_num)).2.2.2.2.2.2.1⟩

/-! ### The index of the NA-fill loops -/

/-- Every index below `12 * n_rows` is the index of one pair `(ii, jj)`. -/
theorem fill_index_onto (n_rows k : Nat) (hk : k < 12 * n_rows) :
    ∃ ii jj, ii < n_rows ∧ jj < 12 ∧ k = ii + jj * n_rows := by
  have hn : 0 < n_rows := by omega
  refine ⟨k % n_rows, k / n_rows, Nat.mod_lt _ hn, ?_, ?_⟩
  · exact Nat.div_lt_of_lt_mul (by omega)
  · have := Nat.mod_add_div k n_rows
    rw [Nat.mul_comm] at this
    exact this.symm

/-- Two pairs `(ii, jj)` with the same index are the same pair. -/
theorem fill_index_injective (n_rows ii jj ii' jj' : Nat) (hi : ii < n_rows)
    (hi' : ii' < n_rows) (h : ii + jj * n_rows = ii' + jj' * n_rows) :
    ii = ii' ∧ jj = jj' := by
  have hj : jj = jj' := by
    rcases Nat.lt_trichotomy jj jj' with hlt | heq | hgt
    · have : (jj + 1) * n_rows ≤ jj' * n_rows := Nat.mul_le_mul_right _ hlt
      rw [Nat.succ_mul] at this
      omega
    · exact heq
    · have : (jj' + 1) * n_rows ≤ jj * n_rows := Nat.mul_le_mul_right _ hgt
      rw [Nat.succ_mul] at this
      omega
  subst hj
  exact ⟨by omega, rfl⟩

/-- A list whose entries all hold `a` is the constant list. -/
theorem eq_replicate_of_getElem? {α : Type} (l : List α) (n : Nat) (a : α)
    (hlen : l.length = n) (h : ∀ k, k < n → l[k]? = some a) : l = List.replicate n a := by
  rw [List.eq_replicate_iff]
  refine ⟨hlen, fun b hb => ?_⟩
  obtain ⟨k, hk, rfl⟩ := List.getElem_of_mem hb
  have := h k (by omega)
  rw [List.getElem?_eq_getElem hk] at this
  exact Option.some.inj this

/-- C18 (counterexample). For `n_rows = 178956971` the pair
`(ii, jj) = (178956970, 11)` of the fill loop has the index
`ii + jj * n_rows = 2147483651`, above `INT_MAX = 2147483647`: the `int`
expression overflows and is no index into the allocation. -/
theorem fillIndex_overflow :
    178956970 < 178956971 ∧ 11 < 12 ∧ INT_MAX < 178956970 + 11 * 178956971 ∧
      fillIndex 178956971 178956970 11 = none := by
  decide

/-- C18 (amended). Output initialisation covers each matrix exactly: for every
`n_rows` with `12 * n_rows - 1 ≤ INT_MAX` (`n_rows ≤ 178956970`) the index
`ii + jj * n_rows` of the fill loop is computed without overflow, lies inside
the `n_rows × 12` allocation and maps the pairs `(ii, jj)`, `ii < n_rows`,
`jj < 12`, one-to-one onto `0 .. 12 * n_rows - 1`; the function returns, and
each of the four returned matrices holds `NA_REAL` in all its
`12 * n_rows` entries. -/
theorem fill_covers_matrix {α : Type} (NA_REAL : α)
    (R_dem R_rain R_tmin R_tmax R_V_max R_kRs R_lats_radians : List α) (n_rows : Nat)
    (uninit : Nat → Nat → α) (hn : n_rows ≤ 178956970) :
    (∀ ii jj, ii < n_rows → jj < 12 →
        fillIndex n_rows ii jj = some (ii + jj * n_rows) ∧ ii + jj * n_rows < 12 * n_rows) ∧
      (∀ ii jj ii' jj', ii < n_rows → jj < 12 → ii' < n_rows → jj' < 12 →
        ii + jj * n_rows = ii' + jj' * n_rows → ii = ii' ∧ jj = jj') ∧
      (∀ k, k < 12 * n_rows → ∃ ii jj, ii < n_rows ∧ jj < 12 ∧ k = ii + jj * n_rows) ∧
      RunBudykoBucketModel_5km NA_REAL R_dem R_rain R_tmin R_tmax R_V_max R_kRs
          R_lats_radians n_rows uninit =
        some { R_E_act := List.replicate (12 * n_rows) NA_REAL
               R_E_pot := List.replicate (12 * n_rows) NA_REAL
               R_Q_run := List.replicate (12 * n_rows) NA_REAL
               R_Net_rad := List.replicate (12 * n_rows) NA_REAL } := by
  refine ⟨fun ii jj hi hj => ?_, fun ii jj ii' jj' hi _ hi' _ h => ?_,
    fun k hk => fill_index_onto n_rows k hk, ?_⟩
  · have hlt : ii + jj * n_rows < 12 * n_rows := by nlinarith
    have hle : ii + jj * n_rows ≤ INT_MAX := by unfold INT_MAX; omega
    exact ⟨fillIndex_of_le hle, hlt⟩
  · exact fill_index_injective n_rows ii jj ii' jj' hi hi' h
  · obtain ⟨out, hout, h1, h2, h3, h4⟩ := RunBudykoBucketModel_5km_returns NA_REAL R_dem
      R_rain R_tmin R_tmax R_V_max R_kRs R_lats_radians n_rows uninit hn
    have hall : ∀ k, k < 12 * n_rows → NAat NA_REAL k out := by
      intro k hk
      obtain ⟨ii, jj, hi, hj, rfl⟩ := fill_index_onto n_rows k hk
      exact RunBudykoBucketModel_5km_all_NA NA_REAL R_dem R_rain R_tmin R_tmax R_V_max R_kRs
        R_lats_radians n_rows uninit ii jj hi hj out hout
    rw [hout]
    have e1 := eq_replicate_of_getElem? out.R_E_act (12 * n_rows) NA_REAL
      (by rw [h1, Nat.mul_comm]) (fun k hk => (hall k hk).1)
    have e2 := eq_replicate_of_getElem? out.R_E_pot (12 * n_rows) NA_REAL
      (by rw [h2, Nat.mul_comm]) (fun k hk => (hall k hk).2.1)
    have e3 := eq_replicate_of_getElem? out.R_Q_run (12 * n_rows) NA_REAL
      (by rw [h3, Nat.mul_comm]) (fun k hk => (hall k hk).2.2.1)
    have e4 := eq_replicate_of_getElem? out.R_Net_rad (12 * n_rows) NA_REAL
      (by rw [h4, Nat.mul_comm]) (fun k hk => (hall k hk).2.2.2)
    cases out
    simp only at e1 e2 e3 e4
    rw [e1, e2, e3, e4]

/-- The fill of a two-cell run: 24 entries in each matrix, all the sentinel. -/
theorem fill_covers_matrix_witness :
    2 ≤ 178956970 ∧
      RunBudykoBucketModel_5km (none : Option Nat) [some 5, some 6] [] [] [] [some 1, some 1]
          [some 1, some 1] [some 0, some 0] 2 (fun _ _ => some 7) =
        some { R_E_act := List.replicate (12 * 2) none
               R_E_pot := List.replicate (12 * 2) none
               R_Q_run := List.replicate (12 * 2) none
               R_Net_rad := List.replicate (12 * 2) none } :=
  ⟨by decide, (fill_covers_matrix (none : Option Nat) [some 5, some 6] [] [] []
    [some 1, some 1] [some 1, some 1] [some 0, some 0] 2 (fun _ _ => some 7) (by decide)).2.2.2⟩

/-! ### The year loop of one cell -/

/-- The storage trajectory of a cell of the reference block is `bucketRun` on
the forcing of that cell. -/
theorem cellStorage_eq_bucketRun (g : GridFiles) (i_row i_col k : Nat) :
    cellStorage g i_row i_col k =
      bucketRun (fun m => g.pr m i_row i_col) (fun m => f_E_pot g m i_row i_col)
        (g.PAWHC_5km i_row i_col) k := by
  induction k with
  | zero => rfl
  | succ k ih => simp only [cellStorage, bucketRun, cellStep, ih]

/-- For an available water `w ≥ 1` the formula of the source evaporates at
most `e / w`. -/
theorem f_E_act_le_div_water {e w : ℝ} (he : 0 ≤ e) (hw : 1 ≤ w) :
    ∃ a : ℝ, f_E_act e w = some a ∧ 0 ≤ a ∧ a ≤ e / w := by
  rw [f_E_act_comm]
  exact f_E_act_le_div he hw

/-! ### The radiation of the driver months -/

/-- The factor `d_dr` lies in `[0.967, 1.033]` in every month. -/
theorem d_dr_bounds (i_month : Nat) : 0.967 ≤ d_dr i_month ∧ d_dr i_month ≤ 1.033 := by
  unfold d_dr
  have h1 := Real.neg_one_le_cos (2 * 3.141592654 * (d_J.getD i_month 0 : ℝ) / 365)
  have h2 := Real.cos_le_one (2 * 3.141592654 * (d_J.getD i_month 0 : ℝ) / 365)
  constructor <;> linarith

/-- The declination `d_declination` lies in `[-0.409, 0.409]` in every month. -/
theorem d_declination_bounds (i_month : Nat) :
    -0.409 ≤ d_declination i_month ∧ d_declination i_month ≤ 0.409 := by
  unfold d_declination
  have h1 := Real.neg_one_le_sin ((2 * 3.141592654 * (d_J.getD i_month 0 : ℝ) / 365) - 1.39)
  have h2 := Real.sin_le_one ((2 * 3.141592654 * (d_J.getD i_month 0 : ℝ) / 365) - 1.39)
  constructor <;> linarith

/-- The cosine does not vanish strictly between `-π/2` and `π/2`. -/
theorem cos_ne_zero_of_abs_le {x : ℝ} (h1 : -1.5 ≤ x) (h2 : x ≤ 1.5) : Real.cos x ≠ 0 := by
  apply ne_of_gt
  apply Real.cos_pos_of_mem_Ioo
  constructor <;> linarith [Real.pi_gt_three]

/-- For a latitude in `[0.7, 0.8]` rad and `dr` in `[0.967, 1.033]` the product
`tan(lat)·tan(dr)` exceeds 1. -/
theorem one_lt_tan_mul_tan {lat dr : ℝ} (h1 : 0.7 ≤ lat) (h2 : lat ≤ 0.8) (h3 : 0.967 ≤ dr)
    (h4 : dr ≤ 1.033) : 1 < Real.tan lat * Real.tan dr := by
  have hpi1 := Real.pi_gt_three
  have hpi2 := Real.pi_lt_d2
  have hlat : 0 < Real.tan lat :=
    Real.tan_pos_of_pos_of_lt_pi_div_two (by linarith) (by linarith)
  have hlt : Real.tan (Real.pi / 2 - lat) < Real.tan dr :=
    Real.tan_lt_tan_of_lt_of_lt_pi_div_two (by linarith) (by linarith) (by linarith)
  rw [Real.tan_pi_div_two_sub] at hlt
  have := mul_lt_mul_of_pos_left hlt hlat
  rwa [mul_inv_cancel₀ (ne_of_gt hlat)] at this

/-- C16 (code evaluated at the failing input). At the latitude `-0.75` rad
(inside `|lat| ≤ 0.7771`) the argument `-tan(lat)·tan(dr)` that
`CalculateNetRadiation` passes to `acos` exceeds 1 in every month, for the
`d_dr` of the driver; the sunset hour angle is undefined and the function has
no value, whatever the other arguments. -/
theorem sunset_argument_out_of_range :
    |(-0.75 : ℝ)| ≤ 0.7771 ∧
      (∀ i_month : Nat, 1 < -Real.tan (-0.75) * Real.tan (d_dr i_month)) ∧
      ∀ (i_month : Nat) (Z decl kRs tMax tMin : ℝ),
        CalculateNetRadiation (-0.75) Z (d_dr i_month) decl kRs tMax tMin = none := by
  have hgt : ∀ i_month : Nat, 1 < -Real.tan (-0.75) * Real.tan (d_dr i_month) := by
    intro m
    obtain ⟨h3, h4⟩ := d_dr_bounds m
    rw [Real.tan_neg, neg_neg]
    exact one_lt_tan_mul_tan (by norm_num) (by norm_num) h3 h4
  refine ⟨by rw [abs_neg, abs_of_pos (by norm_num)]; norm_num, hgt, ?_⟩
  intro m Z decl kRs tMax tMin
  obtain ⟨h3, h4⟩ := d_dr_bounds m
  have hc1 : Real.cos (-0.75) ≠ 0 := cos_ne_zero_of_abs_le (by norm_num) (by norm_num)
  have hc2 : Real.cos (d_dr m) ≠ 0 := cos_ne_zero_of_abs_le (by linarith) (by linarith)
  have hout : ¬ (-1 ≤ -Real.tan (-0.75) * Real.tan (d_dr m) ∧
      -Real.tan (-0.75) * Real.tan (d_dr m) ≤ 1) := fun h => absurd h.2 (not_le.mpr (hgt m))
  simp only [CalculateNetRadiation, c_tan, c_acos, hc1, hc2, hout, if_false,
    Option.bind_eq_bind, Option.some_bind, Option.none_bind]

/-- The value of `CalculateNetRadiation` at latitude 0 and elevation 0 for
`kRs = 0.17`, `tMax = 25`, `tMin = 15`: the sunset hour angle is `π/2` and the
radiation at the top of the atmosphere is `37.58603136·dr·cos(decl)`. -/
theorem CalculateNetRadiation_equator {dr decl : ℝ} (h3 : 0.967 ≤ dr) (h4 : dr ≤ 1.033)
    (h5 : -0.409 ≤ decl) (h6 : decl ≤ 0.409) :
    CalculateNetRadiation 0 0 dr decl 0.17 25 15 =
      some (0.77 * (0.17 * Real.sqrt 10 * (37.58603136 * dr * Real.cos decl)) -
        36.751 * (0.34 - 0.14 * Real.sqrt (0.6108 * Real.exp (259.05 / 288.3))) *
          (1.35 * (0.17 * Real.sqrt 10 / 0.75) - 1.35)) := by
  have hc : Real.cos dr ≠ 0 := cos_ne_zero_of_abs_le (by linarith) (by linarith)
  have hcd : 0 < Real.cos decl :=
    Real.cos_pos_of_mem_Ioo ⟨by linarith [Real.pi_gt_three], by linarith [Real.pi_gt_three]⟩
  have hRa : 37.58603136 * dr * Real.cos decl ≠ 0 :=
    ne_of_gt (mul_pos (mul_pos (by norm_num) (by linarith)) hcd)
  have h1 : (0 : ℝ) ≤ 25 - 15 := by norm_num
  have h2 : ¬ ((15 : ℝ) + 273.3 = 0) := by norm_num
  have hea : ∀ x : ℝ, 0 ≤ 0.6108 * Real.exp x := fun x => by positivity
  have hz : (-1 : ℝ) ≤ 0 ∧ (0 : ℝ) ≤ 1 := ⟨by norm_num, by norm_num⟩
  have hRso : ¬ ((0.75 + 0) * (37.58603136 * dr * Real.cos decl) = 0) :=
    mul_ne_zero (by norm_num) hRa
  simp only [CalculateNetRadiation, c_tan, c_acos, c_sqrt, c_div, Real.cos_zero, Real.tan_zero,
    Real.sin_zero, one_ne_zero, hc, neg_zero, zero_mul, hz, and_self, Real.arccos_zero,
    Real.sin_pi_div_two, mul_zero, zero_add, one_mul, mul_one, h1, h2, hea, hRso, hRa,
    if_true, if_false, Option.bind_eq_bind, Option.some_bind, Option.pure_def]
  congr 1
  have e1 : (25 : ℝ) - 15 = 10 := by norm_num
  have e2 : (17.27 : ℝ) * 15 / (15 + 273.3) = 259.05 / 288.3 := by norm_num
  rw [e1, e2]
  have e3 : 0.17 * Real.sqrt 10 * (37.58603136 * dr * Real.cos decl) /
      ((0.75 + 0) * (37.58603136 * dr * Real.cos decl)) =
      0.17 * Real.sqrt 10 / 0.75 := by
    field_simp
    ring
  rw [e3]
  norm_num

/-- Bounds on `√10`. -/
theorem sqrt_ten_bounds : 3.16 ≤ Real.sqrt 10 ∧ Real.sqrt 10 ≤ 3.17 := by
  constructor
  · exact Real.le_sqrt_of_sq_le (by norm_num)
  · rw [Real.sqrt_le_left (by norm_num)]
    norm_num

/-- Bounds on the square root of the vapour pressure `d_ea` at `tMin = 15`. -/
theorem sqrt_ea_bounds :
    1 ≤ Real.sqrt (0.6108 * Real.exp (259.05 / 288.3)) ∧
      Real.sqrt (0.6108 * Real.exp (259.05 / 288.3)) ≤ 1.3 := by
  have hlo : (259.05 / 288.3 : ℝ) + 1 ≤ Real.exp (259.05 / 288.3) := Real.add_one_le_exp _
  have hup : Real.exp (259.05 / 288.3) ≤ Real.exp 1 :=
    Real.exp_le_exp.mpr (by norm_num)
  have h1 := Real.exp_one_lt_d9
  constructor
  · apply Real.le_sqrt_of_sq_le
    have : (1.89 : ℝ) ≤ 259.05 / 288.3 + 1 := by norm_num
    nlinarith
  · rw [Real.sqrt_le_left (by norm_num)]
    nlinarith

set_option maxHeartbeats 400000 in
/-- The arithmetic of the radiation bound: with `s = √10`, `q = √ea`,
`c = cos(decl)` in their ranges the net radiation lies in `[5, 20]`. -/
theorem net_radiation_arith {s q c dr : ℝ} (hs1 : 3.16 ≤ s) (hs2 : s ≤ 3.17) (hq1 : 1 ≤ q)
    (hq2 : q ≤ 1.3) (hc1 : 0.9 ≤ c) (hc2 : c ≤ 1) (h3 : 0.967 ≤ dr) (h4 : dr ≤ 1.033) :
    5 ≤ 0.77 * (0.17 * s * (37.58603136 * dr * c)) -
        36.751 * (0.34 - 0.14 * q) * (1.35 * (0.17 * s / 0.75) - 1.35) ∧
      0.77 * (0.17 * s * (37.58603136 * dr * c)) -
        36.751 * (0.34 - 0.14 * q) * (1.35 * (0.17 * s / 0.75) - 1.35) ≤ 20 := by
  have hB1 : 0.158 ≤ 0.34 - 0.14 * q := by linarith
  have hB2 : 0.34 - 0.14 * q ≤ 0.2 := by linarith
  have hC : 1.35 * (0.17 * s / 0.75) - 1.35 = 0.306 * s - 1.35 := by ring
  have hC1 : 0.379 ≤ -(1.35 * (0.17 * s / 0.75) - 1.35) := by rw [hC]; linarith
  have hC2 : -(1.35 * (0.17 * s / 0.75) - 1.35) ≤ 0.384 := by rw [hC]; linarith
  have hBC1 : 0.158 * 0.379 ≤ (0.34 - 0.14 * q) * -(1.35 * (0.17 * s / 0.75) - 1.35) :=
    mul_le_mul hB1 hC1 (by norm_num) (by linarith)
  have hBC2 : (0.34 - 0.14 * q) * -(1.35 * (0.17 * s / 0.75) - 1.35) ≤ 0.2 * 0.384 :=
    mul_le_mul hB2 hC2 (by linarith) (by norm_num)
  have hsd1 : 3.16 * 0.967 ≤ s * dr := mul_le_mul hs1 h3 (by norm_num) (by linarith)
  have hsd2 : s * dr ≤ 3.17 * 1.033 := mul_le_mul hs2 h4 (by linarith) (by norm_num)
  have hsdc1 : 3.16 * 0.967 * 0.9 ≤ s * dr * c :=
    mul_le_mul hsd1 hc1 (by norm_num) (by nlinarith)
  have hsdc2 : s * dr * c ≤ 3.17 * 1.033 * 1 :=
    mul_le_mul hsd2 hc2 (by linarith) (by norm_num)
  constructor <;> linarith

/-- The cosine of a declination in `[-0.409, 0.409]` is at least 0.9. -/
theorem cos_declination_bounds {decl : ℝ} (h5 : -0.409 ≤ decl) (h6 : decl ≤ 0.409) :
    0.9 ≤ Real.cos decl ∧ Real.cos decl ≤ 1 := by
  refine ⟨?_, Real.cos_le_one _⟩
  have := Real.one_sub_sq_div_two_le_cos (x := decl)
  nlinarith

/-- The net radiation of the end-to-end scenario lies in `[5, 20]` for every
`dr` in `[0.967, 1.033]` and every declination in `[-0.409, 0.409]`. -/
theorem CalculateNetRadiation_equator_bounds {dr decl : ℝ} (h3 : 0.967 ≤ dr)
    (h4 : dr ≤ 1.033) (h5 : -0.409 ≤ decl) (h6 : decl ≤ 0.409) :
    ∃ v : ℝ, CalculateNetRadiation 0 0 dr decl 0.17 25 15 = some v ∧ 5 ≤ v ∧ v ≤ 20 :=
  ⟨_, CalculateNetRadiation_equator h3 h4 h5 h6,
    net_radiation_arith sqrt_ten_bounds.1 sqrt_ten_bounds.2 sqrt_ea_bounds.1 sqrt_ea_bounds.2
      (cos_declination_bounds h5 h6).1 (cos_declination_bounds h5 h6).2 h3 h4⟩

/-- C11. End-to-end radiation bound: in each of the 12 months, with `d_dr` and
`d_declination` of the representative Julian day, the net radiation
`CalculateNetRadiation(0, 0, dr, declination, 0.17, 25, 15)` is positive and
lies in `[5, 20]`. -/
theorem net_radiation_in_range (i_month : Nat) (_hm : i_month < 12) :
    ∃ v : ℝ, CalculateNetRadiation 0 0 (d_dr i_month) (d_declination i_month) 0.17 25 15 =
        some v ∧ 0 < v ∧ 5 ≤ v ∧ v ≤ 20 := by
  obtain ⟨v, hv, h1, h2⟩ := CalculateNetRadiation_equator_bounds (d_dr_bounds i_month).1
    (d_dr_bounds i_month).2 (d_declination_bounds i_month).1 (d_declination_bounds i_month).2
  exact ⟨v, hv, by linarith, h1, h2⟩

/-- The net radiation of January (Julian day 15). -/
theorem net_radiation_in_range_witness :
    0 < 12 ∧ ∃ v : ℝ, CalculateNetRadiation 0 0 (d_dr 0) (d_declination 0) 0.17 25 15 =
      some v ∧ 0 < v ∧ 5 ≤ v ∧ v ≤ 20 :=
  ⟨by decide, net_radiation_in_range 0 (by decide)⟩


/-! ### The maximum temperature of the reference block -/

/-- Bounds on the tangent of a small non-negative angle. -/
theorem tan_bounds_of_small {a : ℝ} (h0 : 0 ≤ a) (h1 : a ≤ 0.2) :
    0 ≤ Real.tan a ∧ Real.tan a ≤ 0.21 := by
  have hs0 : 0 ≤ Real.sin a :=
    Real.sin_nonneg_of_nonneg_of_le_pi h0 (by linarith [Real.pi_gt_three])
  have hs1 : Real.sin a ≤ a := Real.sin_le h0
  have hc := Real.one_sub_sq_div_two_le_cos (x := a)
  have hc1 : 0.98 ≤ Real.cos a := by nlinarith
  have hcpos : 0 < Real.cos a := by linarith
  rw [Real.tan_eq_sin_div_cos]
  refine ⟨div_nonneg hs0 hcpos.le, ?_⟩
  rw [div_le_iff₀ hcpos]
  nlinarith

/-- Bounds on the tangent of the distance factor `dr`. -/
theorem tan_dr_bounds {dr : ℝ} (h3 : 0.967 ≤ dr) (h4 : dr ≤ 1.033) :
    0 ≤ Real.tan dr ∧ Real.tan dr ≤ 2.2 := by
  have hs0 : 0 ≤ Real.sin dr :=
    Real.sin_nonneg_of_nonneg_of_le_pi (by linarith) (by linarith [Real.pi_gt_three])
  have hs1 : Real.sin dr ≤ 1 := Real.sin_le_one dr
  have hc := Real.one_sub_sq_div_two_le_cos (x := dr)
  have hc1 : 0.46 ≤ Real.cos dr := by nlinarith
  have hcpos : 0 < Real.cos dr := by linarith
  rw [Real.tan_eq_sin_div_cos]
  refine ⟨div_nonneg hs0 hcpos.le, ?_⟩
  rw [div_le_iff₀ hcpos]
  nlinarith

/-- The function `CalculateNetRadiation` returns a value for a latitude in
`[-0.2, 0]` rad (the northernmost rows of the grid), `dr` in `[0.967, 1.033]`, a
declination in `[-0.409, 0]`, a non-negative elevation and temperatures with
`-273.3 < tMin ≤ tMax`. -/
theorem CalculateNetRadiation_defined {lat Z dr decl kRs tMax tMin : ℝ} (hl1 : -0.2 ≤ lat)
    (hl2 : lat ≤ 0) (h3 : 0.967 ≤ dr) (h4 : dr ≤ 1.033) (h5 : -0.409 ≤ decl) (h6 : decl ≤ 0)
    (hZ : 0 ≤ Z) (hT : tMin ≤ tMax) (hmin : -273.3 < tMin) :
    ∃ v, CalculateNetRadiation lat Z dr decl kRs tMax tMin = some v := by
  have hcl : Real.cos lat ≠ 0 := cos_ne_zero_of_abs_le (by linarith) (by linarith)
  have hcd : Real.cos dr ≠ 0 := cos_ne_zero_of_abs_le (by linarith) (by linarith)
  obtain ⟨ha0, ha1⟩ := tan_bounds_of_small (a := -lat) (by linarith) (by linarith)
  obtain ⟨hb0, hb1⟩ := tan_dr_bounds h3 h4
  rw [Real.tan_neg] at ha0 ha1
  have hx0 : 0 ≤ -Real.tan lat * Real.tan dr := mul_nonneg ha0 hb0
  have hx1 : -Real.tan lat * Real.tan dr ≤ 0.462 := by nlinarith
  have hx : -1 ≤ -Real.tan lat * Real.tan dr ∧ -Real.tan lat * Real.tan dr ≤ 1 :=
    ⟨by linarith, by linarith⟩
  have hw0 : 0 ≤ Real.arccos (-Real.tan lat * Real.tan dr) := Real.arccos_nonneg _
  have hsw : 0 < Real.sin (Real.arccos (-Real.tan lat * Real.tan dr)) := by
    rw [Real.sin_arccos]
    apply Real.sqrt_pos.mpr
    nlinarith
  have hsl : Real.sin lat ≤ 0 :=
    Real.sin_nonpos_of_nonnpos_of_neg_pi_le hl2 (by linarith [Real.pi_gt_three])
  have hsd : Real.sin decl ≤ 0 :=
    Real.sin_nonpos_of_nonnpos_of_neg_pi_le h6 (by linarith [Real.pi_gt_three])
  have hclp : 0 < Real.cos lat :=
    Real.cos_pos_of_mem_Ioo ⟨by linarith [Real.pi_gt_three], by linarith [Real.pi_gt_three]⟩
  have hcdp : 0 < Real.cos decl :=
    Real.cos_pos_of_mem_Ioo ⟨by linarith [Real.pi_gt_three], by linarith [Real.pi_gt_three]⟩
  have hterm : 0 ≤ Real.arccos (-Real.tan lat * Real.tan dr) * Real.sin lat * Real.sin decl := by
    rw [mul_assoc]
    exact mul_nonneg hw0 (mul_nonneg_of_nonpos_of_nonpos hsl hsd)
  have hRa : 0 < 37.58603136 * dr *
      (Real.arccos (-Real.tan lat * Real.tan dr) * Real.sin lat * Real.sin decl +
        Real.cos lat * Real.cos decl * Real.sin (Real.arccos (-Real.tan lat * Real.tan dr))) := by
    apply mul_pos (mul_pos (by norm_num) (by linarith))
    have := mul_pos (mul_pos hclp hcdp) hsw
    linarith
  have hRso : ¬ ((0.75 + 200000 * Z) * (37.58603136 * dr *
      (Real.arccos (-Real.tan lat * Real.tan dr) * Real.sin lat * Real.sin decl +
        Real.cos lat * Real.cos decl *
          Real.sin (Real.arccos (-Real.tan lat * Real.tan dr)))) = 0) :=
    mul_ne_zero (by nlinarith) (ne_of_gt hRa)
  have h1 : 0 ≤ tMax - tMin := by linarith
  have h2 : ¬ (tMin + 273.3 = 0) := by
    intro h
    linarith
  have hea : ∀ x : ℝ, 0 ≤ 0.6108 * Real.exp x := fun x => by positivity
  simp only [CalculateNetRadiation, c_tan, c_acos, c_sqrt, c_div, hcl, hcd, hx, and_self,
    h1, h2, hea, hRso, if_true, if_false, Option.bind_eq_bind, Option.some_bind,
    Option.pure_def]
  exact ⟨_, rfl⟩

/-- The latitude of row 0 of the grid lies in `[-0.2, 0]` rad. -/
theorem f_latitude_radians_zero_bounds :
    -0.2 ≤ f_latitude_radians 0 ∧ f_latitude_radians 0 ≤ 0 := by
  unfold f_latitude_radians
  norm_num

/-- The declination of February is not positive. -/
theorem d_declination_february : -0.409 ≤ d_declination 1 ∧ d_declination 1 ≤ 0 := by
  refine ⟨(d_declination_bounds 1).1, ?_⟩
  have h : Real.sin ((2 * 3.141592654 * ((45 : Nat) : ℝ) / 365) - 1.39) ≤ 0 := by
    apply Real.sin_nonpos_of_nonnpos_of_neg_pi_le
    · norm_num
    · have := Real.pi_gt_three
      norm_num
      linarith
  have e : d_declination 1 =
      0.409 * Real.sin ((2 * 3.141592654 * ((45 : Nat) : ℝ) / 365) - 1.39) := by
    simp [d_declination, d_J]
  rw [e]
  nlinarith

/-- C10. Per-cell independence fails in the reference block.  The two runs
`uniformGrids` and `perturbedGrids` have the same `1 × 2` grid and agree on
every input of the cell `(0, 0)`: elevation 0, `kRs = 0.17`, capacity 100,
precipitation 50, minimum temperature 15 and maximum temperature 25 in every
month; they differ in the other cell `(0, 1)` only.  In February the tasmax
file does not open, so `f_Tmax` of the cell `(0, 0)` is the January value of
the cell `(0, 1)`: 25 in the first run, 0 in the second.  The first run
computes a net radiation and a potential evaporation for the cell `(0, 0)`,
the second run has no real value for either (`sqrt` of `0 - 15`). -/
theorem reference_cell_depends_on_last_cell :
    uniformGrids.n_rows = perturbedGrids.n_rows ∧
      uniformGrids.n_cols = perturbedGrids.n_cols ∧
      AgreeAt uniformGrids perturbedGrids 0 0 ∧
      tasmaxOpens 1 = false ∧
      f_Tmax uniformGrids 1 0 0 = 25 ∧ f_Tmax perturbedGrids 1 0 0 = 0 ∧
      (∃ v, d_Rn uniformGrids 1 0 0 = some v) ∧ d_Rn perturbedGrids 1 0 0 = none ∧
      (∃ e, f_E_pot uniformGrids 1 0 0 = some e) ∧ f_E_pot perturbedGrids 1 0 0 = none := by
  have hag : AgreeAt uniformGrids perturbedGrids 0 0 := by
    simp [AgreeAt, uniformGrids, perturbedGrids]
  have hu : f_Tmax uniformGrids 1 0 0 = 25 := by
    rw [f_Tmax_succ]
    rfl
  have hp : f_Tmax perturbedGrids 1 0 0 = 0 := by
    rw [f_Tmax_succ]
    simp [perturbedGrids]
  obtain ⟨hl1, hl2⟩ := f_latitude_radians_zero_bounds
  obtain ⟨hd1, hd2⟩ := d_dr_bounds 1
  obtain ⟨hc1, hc2⟩ := d_declination_february
  have hru : ∃ v, d_Rn uniformGrids 1 0 0 = some v := by
    have h := @CalculateNetRadiation_defined (f_latitude_radians 0) 0 (d_dr 1)
      (d_declination 1) 0.17 25 15 hl1 hl2 hd1 hd2 hc1 hc2 (le_refl 0) (by norm_num)
      (by norm_num)
    simpa only [d_Rn, hu, uniformGrids] using h
  have hrp : d_Rn perturbedGrids 1 0 0 = none := by
    have hcl : Real.cos (f_latitude_radians 0) ≠ 0 :=
      cos_ne_zero_of_abs_le (by linarith) (by linarith)
    have hcd : Real.cos (d_dr 1) ≠ 0 := cos_ne_zero_of_abs_le (by linarith) (by linarith)
    have hneg : ¬ ((0 : ℝ) ≤ 0 - 15) := by norm_num
    have hsq : c_sqrt ((0 : ℝ) - 15) = none := by simp only [c_sqrt, hneg, if_false]
    have ht : perturbedGrids.tasmin 1 0 0 = 15 := by simp [perturbedGrids]
    simp only [d_Rn, hp, ht, CalculateNetRadiation, c_tan, hcl, hcd, if_false,
      Option.bind_eq_bind, Option.some_bind, hsq]
    cases c_acos (-Real.tan (f_latitude_radians 0) * Real.tan (d_dr 1)) with
    | none => rfl
    | some w => rfl
  refine ⟨rfl, rfl, hag, tasmaxOpens_succ 0, hu, hp, hru, hrp, ?_, ?_⟩
  · obtain ⟨v, hv⟩ := hru
    have hpt := (@CalculatePTEvaporation_value ((25 + 15) / 2) 0 (by norm_num) (by norm_num)
      (by norm_num)).2.2.2.2.2.2 v
    have ht : uniformGrids.tasmin 1 0 0 = 15 := rfl
    have hz : uniformGrids.DEM_5km 0 0 = 0 := rfl
    have e : f_E_pot uniformGrids 1 0 0 = CalculatePTEvaporation ((25 + 15) / 2) 0 v := by
      simp only [f_E_pot, hv, hu, ht, hz, Option.bind_eq_bind, Option.some_bind]
    exact ⟨_, e.trans hpt⟩
  · simp only [f_E_pot, hrp, Option.bind_eq_bind, Option.none_bind]

/-! ### The end-to-end scenario -/

/-- The potential evaporation of the end-to-end scenario has a value in
`(0, 11]` in every month. -/
theorem equatorPotentialEvap_bounds (i_month : Nat) :
    ∃ e : ℝ, equatorPotentialEvap i_month = some e ∧ 0 < e ∧ e ≤ 11 := by
  obtain ⟨rn, hrn, h5, h20⟩ := CalculateNetRadiation_equator_bounds (d_dr_bounds i_month).1
    (d_dr_bounds i_month).2 (d_declination_bounds i_month).1 (d_declination_bounds i_month).2
  obtain ⟨_, hl, _, hD, hg, hden, hv⟩ := CalculatePTEvaporation_value (T := (25 + 15) / 2)
    (Z := 0) (by norm_num) (by norm_num) (by norm_num)
  refine ⟨1.26 * rn / (d_lambda ((25 + 15) / 2) *
    (1 + d_gamma ((25 + 15) / 2) 0 / d_Delta ((25 + 15) / 2))), ?_, ?_, ?_⟩
  · unfold equatorPotentialEvap
    rw [hrn]
    exact hv rn
  · exact div_pos (by linarith) hden
  · rw [div_le_iff₀ hden]
    have hq : 0 < d_gamma ((25 + 15) / 2) 0 / d_Delta ((25 + 15) / 2) := div_pos hg hD
    have hl2 : (2.4 : ℝ) ≤ d_lambda ((25 + 15) / 2) := by unfold d_lambda; norm_num
    have : d_lambda ((25 + 15) / 2) ≤
        d_lambda ((25 + 15) / 2) * (1 + d_gamma ((25 + 15) / 2) 0 / d_Delta ((25 + 15) / 2)) := by
      nlinarith
    nlinarith

/-- The first step of the scenario: from the storage 50 with precipitation 50
the bucket is filled to at least 99. -/
theorem bucketStep_from_half {e : ℝ} (he0 : 0 < e) (he : e ≤ 11) :
    ∃ r : BucketResult, bucketStep 50 50 e 100 = some r ∧ 99 ≤ r.newStorage ∧
      r.newStorage ≤ 100 := by
  obtain ⟨a, ha, ha0, hle⟩ := f_E_act_le_div_water (e := e) (w := 50 + 50) he0.le (by norm_num)
  refine ⟨_, bucketStep_of_evap ha, ?_, min_le_right _ _⟩
  have h1 : a ≤ 1 := by
    refine le_trans hle ?_
    rw [div_le_iff₀ (by norm_num)]
    linarith
  show 99 ≤ min (50 + 50 - a) 100
  exact le_min (by linarith) (by norm_num)

/-- A step of the scenario from a storage in `[99, 100]`: the bucket overflows
and stays at the capacity 100. -/
theorem bucketStep_near_full {v e : ℝ} (hv1 : 99 ≤ v) (_hv2 : v ≤ 100) (he0 : 0 < e)
    (he : e ≤ 11) :
    ∃ r : BucketResult, bucketStep v 50 e 100 = some r ∧ r.newStorage = 100 := by
  obtain ⟨a, ha, ha0, hle⟩ := f_E_act_le_div_water (e := e) (w := v + 50) he0.le (by linarith)
  refine ⟨_, bucketStep_of_evap ha, ?_⟩
  have h1 : a ≤ 1 := by
    refine le_trans hle ?_
    rw [div_le_iff₀ (by linarith)]
    linarith
  show min (v + 50 - a) 100 = 100
  exact min_eq_right (by linarith)

/-- In the end-to-end scenario the storage is in `[99, 100]` after the first
step and ever after. -/
theorem scenario_storage_near_full (k : Nat) :
    ∃ v : ℝ, bucketRun (fun _ => 50) equatorPotentialEvap 100 (k + 1) = some v ∧
      99 ≤ v ∧ v ≤ 100 := by
  induction k with
  | zero =>
    obtain ⟨e, he, he0, he11⟩ := equatorPotentialEvap_bounds (0 % 12)
    obtain ⟨r, hr, h1, h2⟩ := bucketStep_from_half he0 he11
    refine ⟨r.newStorage, ?_, h1, h2⟩
    have h50 : (100 : ℝ) / 2 = 50 := by norm_num
    simp only [bucketRun, h50, he, hr, Option.bind_eq_bind, Option.some_bind, Option.map_some']
  | succ k ih =>
    obtain ⟨v, hv, hv1, hv2⟩ := ih
    obtain ⟨e, he, he0, he11⟩ := equatorPotentialEvap_bounds ((k + 1) % 12)
    obtain ⟨r, hr, h1⟩ := bucketStep_near_full hv1 hv2 he0 he11
    refine ⟨r.newStorage, ?_, by rw [h1]; norm_num, by rw [h1]⟩
    rw [bucketRun, hv]
    simp only [he, hr, Option.bind_eq_bind, Option.some_bind, Option.map_some']

/-- In the end-to-end scenario the storage is the capacity 100 from the second
step on. -/
theorem scenario_storage_full (k : Nat) :
    bucketRun (fun _ => 50) equatorPotentialEvap 100 (k + 2) = some 100 := by
  obtain ⟨v, hv, hv1, hv2⟩ := scenario_storage_near_full k
  obtain ⟨e, he, he0, he11⟩ := equatorPotentialEvap_bounds ((k + 1) % 12)
  obtain ⟨r, hr, h1⟩ := bucketStep_near_full hv1 hv2 he0 he11
  rw [bucketRun, hv]
  simp only [he, hr, h1, Option.bind_eq_bind, Option.some_bind, Option.map_some']

/-- C12. End-to-end convergence: for the cell with latitude 0, elevation 0,
`kRs = 0.17`, `tMax = 25`, `tMin = 15`, precipitation 50 in every month and
capacity 100, with the potential evaporation of each month computed by
`CalculateNetRadiation` and `CalculatePTEvaporation` and the storage started
at 50, the storage at the end of the fourth year (48 steps) differs from the
storage at the end of the third year (36 steps) by less than 0.01. -/
theorem scenario_converged :
    ∃ v3 v4 : ℝ, yearEndStorage (fun _ => 50) equatorPotentialEvap 100 3 = some v3 ∧
      yearEndStorage (fun _ => 50) equatorPotentialEvap 100 4 = some v4 ∧
      |v4 - v3| < 0.01 := by
  refine ⟨100, 100, scenario_storage_full 34, scenario_storage_full 46, ?_⟩
  norm_num

/-! ### The spin-up of one cell -/

/-- For `x ≥ 0`: `x^1.9 ≤ 0.9·x² + 0.1·x` (weighted means of `x²` and `x`). -/
theorem rpow19_le_mean {x : ℝ} (hx : 0 ≤ x) : x ^ (1.9 : ℝ) ≤ 0.9 * x ^ 2 + 0.1 * x := by
  have h := @Real.geom_mean_le_arith_mean2_weighted 0.9 0.1 (x ^ 2) x
    (by norm_num) (by norm_num) (by positivity) hx (by norm_num)
  have e : (x ^ 2) ^ (0.9 : ℝ) * x ^ (0.1 : ℝ) = x ^ (1.9 : ℝ) := by
    rw [← Real.rpow_natCast x 2, ← Real.rpow_mul hx]
    rcases eq_or_lt_of_le hx with h0 | h0
    · subst h0
      rw [Real.zero_rpow (by norm_num), Real.zero_rpow (by norm_num),
        Real.zero_rpow (by norm_num)]
      norm_num
    · rw [← Real.rpow_add h0]
      norm_num
  rw [e] at h
  exact h

/-- For `0 < x ≤ 1`: `x² ≤ x^1.9`. -/
theorem sq_le_rpow19 {x : ℝ} (h0 : 0 < x) (h1 : x ≤ 1) : x ^ 2 ≤ x ^ (1.9 : ℝ) := by
  rw [← Real.rpow_natCast x 2]
  exact Real.rpow_le_rpow_of_exponent_ge h0 h1 (by norm_num)

/-- Bounds on `(1/4)^1.9`. -/
theorem quarter_rpow19_bounds :
    1 / 16 ≤ (1 / 4 : ℝ) ^ (1.9 : ℝ) ∧ (1 / 4 : ℝ) ^ (1.9 : ℝ) ≤ 1 / 8 := by
  constructor
  · have h := sq_le_rpow19 (x := 1 / 4) (by norm_num) (by norm_num)
    norm_num at h ⊢
    exact h
  · have h := sq_rpow19_le (t := 1 / 2) (by norm_num) (by norm_num)
    norm_num at h ⊢
    exact h

/-- With the potential evaporation 1/4 and the available water 1 the source
evaporates between 16/81 and 4/17. -/
theorem f_E_act_quarter_one :
    ∃ a : ℝ, f_E_act (1 / 4) (1 + 0) = some a ∧ 16 / 81 ≤ a ∧ a ≤ 4 / 17 := by
  obtain ⟨hc1, hc2⟩ := quarter_rpow19_bounds
  have hd := f_E_act_denominator_pos (e := 1 / 4) (w := 1 + 0) (by norm_num) (by norm_num)
    (Or.inl (by norm_num))
  refine ⟨_, f_E_act_of_pos (by norm_num) (by norm_num) (Or.inl (by norm_num)), ?_, ?_⟩
  all_goals
    rw [add_zero, Real.one_rpow] at hd ⊢
    generalize (1 / 4 : ℝ) ^ (1.9 : ℝ) = c at *
  · have hup : (1 + c) ^ (1.9 : ℝ) ≤ 81 / 64 := by
      calc (1 + c) ^ (1.9 : ℝ) ≤ (1 + c) ^ (2 : ℝ) :=
            Real.rpow_le_rpow_of_exponent_le (by linarith) (by norm_num)
        _ = (1 + c) ^ 2 := Real.rpow_two _
        _ ≤ 81 / 64 := by nlinarith
    rw [le_div_iff₀ hd]
    linarith
  · have hlo : 17 / 16 ≤ (1 + c) ^ (1.9 : ℝ) :=
      le_trans (by linarith) (self_le_rpow19 (x := 1 + c) (by linarith))
    rw [div_le_iff₀ hd]
    linarith

/-- With the potential evaporation 1/4 and an available water `v` between
13/17 and 65/81 the source evaporates at least 1/4 and less than `v`. -/
theorem f_E_act_quarter_mid {v : ℝ} (hv1 : 13 / 17 ≤ v) (hv2 : v ≤ 65 / 81) :
    ∃ a : ℝ, f_E_act (1 / 4) (v + 0) = some a ∧ 1 / 4 ≤ a ∧ a < v := by
  obtain ⟨hc1, hc2⟩ := quarter_rpow19_bounds
  have hv0 : 0 < v := by linarith
  have hd := f_E_act_denominator_pos (e := 1 / 4) (w := v + 0) (by linarith) (by norm_num)
    (Or.inl (by linarith))
  have hvu : v ^ (1.9 : ℝ) ≤ 0.9 * v ^ 2 + 0.1 * v := rpow19_le_mean hv0.le
  have hvl : v ^ 2 ≤ v ^ (1.9 : ℝ) := sq_le_rpow19 hv0 (by linarith)
  refine ⟨_, f_E_act_of_pos (by linarith) (by norm_num) (Or.inl (by linarith)), ?_, ?_⟩
  all_goals
    rw [add_zero] at hd ⊢
    generalize (1 / 4 : ℝ) ^ (1.9 : ℝ) = c at *
    generalize v ^ (1.9 : ℝ) = p at *
    have hD0 : 0 < p + c := by nlinarith
    have hD1 : p + c ≤ 0.785 := by nlinarith
    have hDl : 0.64 ≤ p + c := by nlinarith
    have hDu : (p + c) ^ (1.9 : ℝ) ≤ 0.9 * (p + c) ^ 2 + 0.1 * (p + c) := rpow19_le_mean hD0.le
    have hDlo : (p + c) ^ 2 ≤ (p + c) ^ (1.9 : ℝ) := sq_le_rpow19 hD0 (by linarith)
    generalize (p + c) ^ (1.9 : ℝ) = q at *
  · rw [le_div_iff₀ hd]
    nlinarith
  · rw [div_lt_iff₀ hd]
    nlinarith

/-- A month without precipitation and without evaporative demand leaves a
positive storage below the capacity as it is. -/
theorem bucketStep_idle {v vmax : ℝ} (hv0 : 0 < v) (hv : v ≤ vmax) :
    bucketStep v 0 0 vmax = some { actualEvap := 0, runoff := 0, newStorage := v } := by
  have hE : f_E_act 0 (v + 0) = some 0 := by
    rw [f_E_act_of_pos (by linarith) le_rfl (Or.inl (by linarith))]
    simp
  rw [bucketStep_of_evap hE]
  have h1 : max (v + 0 - 0 - vmax) 0 = 0 := max_eq_right (by linarith)
  have h2 : min (v + 0 - 0) vmax = v := by rw [min_eq_left (by linarith)]; ring
  rw [h1, h2]

/-- Under the forcing `januaryDemand` the storage does not change in the
months after the first. -/
theorem januaryDemand_idle (k : Nat) (hk : k % 12 ≠ 0) (v : ℝ)
    (h : bucketRun (fun _ => 0) januaryDemand 2 k = some v) (hv0 : 0 < v) (hv : v ≤ 2) :
    bucketRun (fun _ => 0) januaryDemand 2 (k + 1) = some v := by
  rw [bucketRun, h]
  simp only [januaryDemand, hk, if_false, bucketStep_idle hv0 hv, Option.bind_eq_bind,
    Option.some_bind, Option.map_some']

/-- Under the forcing `januaryDemand` the storage after the first month of a
year is the storage at the end of that year. -/
theorem januaryDemand_year (n : Nat) (v : ℝ)
    (h : bucketRun (fun _ => 0) januaryDemand 2 (12 * n + 1) = some v) (hv0 : 0 < v)
    (hv : v ≤ 2) (j : Nat) (hj : j < 12) :
    bucketRun (fun _ => 0) januaryDemand 2 (12 * n + 1 + j) = some v := by
  induction j with
  | zero => exact h
  | succ j ih =>
    have hmod : (12 * n + 1 + j) % 12 ≠ 0 := by omega
    exact januaryDemand_idle _ hmod v (ih (by omega)) hv0 hv

/-- Under the forcing `januaryDemand` the first month of a year evaporates
`f_E_act (1/4) v` from the storage `v`. -/
theorem januaryDemand_first (n : Nat) (v a : ℝ)
    (h : bucketRun (fun _ => 0) januaryDemand 2 (12 * n) = some v)
    (ha : f_E_act (1 / 4) (v + 0) = some a) :
    bucketRun (fun _ => 0) januaryDemand 2 (12 * n + 1) = some (min (v + 0 - a) 2) := by
  have hmod : (12 * n) % 12 = 0 := by omega
  rw [bucketRun, h]
  simp only [januaryDemand, hmod, if_true, bucketStep_of_evap ha, Option.bind_eq_bind,
    Option.some_bind, Option.map_some']

/-- C13 (code evaluated at the failing input). For the capacity 2, no
precipitation and the potential evaporation 1/4 in the first month of the year
and 0 in the others, the year-end storages `S_0 = 1`, `S_1`, `S_2` have values
and `|S_2 - S_1| > |S_1 - S_0|`: the second year moves the storage farther than
the first. -/
theorem spin_up_expands :
    (0 : ℝ) ≤ 2 ∧ (∀ m : Nat, ∃ e : ℝ, januaryDemand m = some e ∧ 0 ≤ e) ∧
      ∃ s0 s1 s2 : ℝ, yearEndStorage (fun _ => 0) januaryDemand 2 0 = some s0 ∧
        yearEndStorage (fun _ => 0) januaryDemand 2 1 = some s1 ∧
        yearEndStorage (fun _ => 0) januaryDemand 2 2 = some s2 ∧
        |s1 - s0| < |s2 - s1| := by
  refine ⟨by norm_num, fun m => ?_, ?_⟩
  · by_cases hm : m = 0
    · exact ⟨1 / 4, by simp [januaryDemand, hm], by norm_num⟩
    · exact ⟨0, by simp [januaryDemand, hm], le_rfl⟩
  obtain ⟨a1, ha1, h1l, h1u⟩ := f_E_act_quarter_one
  have hS0 : bucketRun (fun _ => 0) januaryDemand 2 (12 * 0) = some 1 := by
    show some ((2 : ℝ) / 2) = some 1
    norm_num
  have hJ1 := januaryDemand_first 0 1 a1 hS0 ha1
  have hmin1 : min ((1 : ℝ) + 0 - a1) 2 = 1 - a1 := by
    rw [min_eq_left (by linarith)]; ring
  rw [hmin1] at hJ1
  have hS1 := januaryDemand_year 0 (1 - a1) hJ1 (by linarith) (by linarith) 11 (by norm_num)
  obtain ⟨a2, ha2, h2l, h2u⟩ := f_E_act_quarter_mid (v := 1 - a1) (by linarith) (by linarith)
  have hJ2 := januaryDemand_first 1 (1 - a1) a2 hS1 ha2
  have hmin2 : min ((1 - a1) + 0 - a2) 2 = 1 - a1 - a2 := by
    rw [min_eq_left (by linarith)]; ring
  rw [hmin2] at hJ2
  have hS2 := januaryDemand_year 1 (1 - a1 - a2) hJ2 (by linarith) (by linarith) 11
    (by norm_num)
  refine ⟨1, 1 - a1, 1 - a1 - a2, hS0, hS1, hS2, ?_⟩
  have e1 : |1 - a1 - 1| = a1 := by
    rw [show 1 - a1 - 1 = -a1 by ring, abs_neg, abs_of_nonneg (by linarith)]
  have e2 : |1 - a1 - a2 - (1 - a1)| = a2 := by
    rw [show 1 - a1 - a2 - (1 - a1) = -a2 by ring, abs_neg, abs_of_nonneg (by linarith)]
  rw [e1, e2]
  linarith

end Budyko
